import Mathlib

/-!
# SEPIC peak-current-mode controller: soft-start supervisor and 2P2Z configuration

A shallow embedding of `sepic_pwr_control.c` (the soft-start state machine
`exec_sepic_pwr_control` with `init_sepic_pwr_control` and
`launch_sepic_pwr_control`, and the sampling interrupt
`_SEPIC_VOUT_ADCInterrupt`) and of `c2p2z_sepic.c` (the compensator defaults and
`c2p2z_sepic_Init`).

Conventions
* The global objects `sepic`, `c2p2z_sepic`, `c2p2z_sepic_coefficients`,
  `c2p2z_sepic_histories` and the register bit `PG1IOCONLbits.OVRENH` are the
  fields of one explicit `State`; every C function becomes a function on `State`
  that also returns the C return value.
* `uint16_t` fields are natural numbers; arithmetic that can overflow is reduced
  modulo `WORD = 2 ^ 16` exactly where the C code writes the field.
* Pointers are values of the enumeration `Loc` of the locations the code takes
  the address of.
* The headers (`sepic_hwdescr.h`, `c2p2z_sepic.h`) are not part of the sources:
  their constants are the fields of `Board`, and the two array capacities they
  fix are the lengths of the lists held in the state.
* The assembly routines `c2p2z_sepic_Reset` and `c2p2z_sepic_Update` are not part
  of the sources either: both are modelled from the specification, the update
  with the parts the specification leaves open as the fields of `UpdateModel`.
  The value written to the actuator target `SEPIC_PCMC_DAC` is returned next to
  the new state.
-/

namespace SepicPcmc

/-! ## Data model -/

/-- Modelled from the spec: the header that declares the soft-start fields is
absent. The counter, the delays and the references are taken as `uint16_t`, the
fixed-width 16-bit word of the target and the type every function of
`sepic_pwr_control.c` returns; `WORD` is its modulus. -/
def WORD : Nat := 65536

/-- Values of `soft_start.phase`. The seven named constructors are the `case`
labels of the `switch` in `exec_sepic_pwr_control`; `undefined_phase raw` stands
for every other value of the field (`SEPIC_SS_FAULT` included), which the `switch`
sends to its `default` arm. -/
inductive SEPIC_SS_PHASE where
  | SEPIC_SS_INIT
  | SEPIC_SS_LAUNCH_PER
  | SEPIC_SS_STANDBY
  | SEPIC_SS_PWR_ON_DELAY
  | SEPIC_SS_RAMP_UP
  | SEPIC_SS_PWR_GOOD_DELAY
  | SEPIC_SS_COMPLETE
  | undefined_phase (raw : Nat)
  deriving DecidableEq, Repr

open SEPIC_SS_PHASE

/-- True exactly for the seven phases that have their own `case` label. -/
def SEPIC_SS_PHASE.handled : SEPIC_SS_PHASE → Bool
  | undefined_phase _ => false
  | _ => true

/-- Values written to `status.flags.op_status`. -/
inductive SEPIC_STAT where
  | SEPIC_STAT_OFF
  | SEPIC_STAT_STANDBY
  | SEPIC_STAT_START
  | SEPIC_STAT_ON
  | SEPIC_STAT_FAULT
  deriving DecidableEq, Repr

open SEPIC_STAT

/-- Locations whose address is stored in a pointer field of the controller. -/
inductive Loc where
  | null
  | data_v_ref
  | soft_start_reference
  | SEPIC_VOUT_ADCTRIG
  | SEPIC_VOUT_ADCBUF
  | SEPIC_PCMC_DAC
  | coefficients_ACoefficients
  | coefficients_BCoefficients
  | histories_ControlHistory
  | histories_ErrorHistory
  deriving DecidableEq, Repr

/-- The member `soft_start` of `SEPIC_POWER_CONTROLLER_t`. -/
structure SEPIC_SOFT_START_t where
  reference : Nat
  ramp_ref_increment : Nat
  pwr_on_delay : Nat
  ramp_period : Nat
  pwr_good_delay : Nat
  counter : Nat
  phase : SEPIC_SS_PHASE
  deriving DecidableEq, Repr

/-- The member `status.flags` of `SEPIC_POWER_CONTROLLER_t`. -/
structure SEPIC_STATUS_FLAGS_t where
  op_status : SEPIC_STAT
  pwm_active : Bool
  adc_active : Bool
  fault_active : Bool
  GO : Bool
  auto_start : Bool
  enabled : Bool
  deriving DecidableEq, Repr

/-- The member `data` of `SEPIC_POWER_CONTROLLER_t`. -/
structure SEPIC_DATA_t where
  v_ref : Nat
  v_out : Nat
  deriving DecidableEq, Repr

/-- The power controller object `sepic`. -/
structure SEPIC_POWER_CONTROLLER_t where
  soft_start : SEPIC_SOFT_START_t
  status : SEPIC_STATUS_FLAGS_t
  data : SEPIC_DATA_t
  deriving DecidableEq, Repr

/-- The compensator object `c2p2z_sepic`. `enable` is `status.flag.enable`,
`status_other` the remaining bits of the status word `status.flags`. -/
structure cNPNZ16b_t where
  enable : Bool
  status_other : Nat
  ptrACoefficients : Loc
  ptrBCoefficients : Loc
  ptrControlHistory : Loc
  ptrErrorHistory : Loc
  normPostShiftA : Int
  normPostShiftB : Int
  normPostScaler : Int
  normPreShift : Int
  ACoefficientsArraySize : Nat
  BCoefficientsArraySize : Nat
  ControlHistoryArraySize : Nat
  ErrorHistoryArraySize : Nat
  ADCTriggerOffset : Nat
  ptrADCTriggerRegister : Loc
  InputOffset : Nat
  ptrControlReference : Loc
  ptrSource : Loc
  ptrTarget : Loc
  MaxOutput : Int
  MinOutput : Int
  deriving DecidableEq, Repr

/-- The X-space object `c2p2z_sepic_coefficients`. -/
structure C2P2Z_SEPIC_CONTROL_LOOP_COEFFICIENTS_t where
  ACoefficients : List Int
  BCoefficients : List Int
  deriving DecidableEq, Repr

/-- The Y-space object `c2p2z_sepic_histories`. -/
structure C2P2Z_SEPIC_CONTROL_LOOP_HISTORIES_t where
  ControlHistory : List Int
  ErrorHistory : List Int
  deriving DecidableEq, Repr

/-- Everything the two source files read or write. `reset_calls` is a trace: the
number of invocations of `c2p2z_sepic_Reset` so far. -/
structure State where
  sepic : SEPIC_POWER_CONTROLLER_t
  c2p2z_sepic : cNPNZ16b_t
  c2p2z_sepic_coefficients : C2P2Z_SEPIC_CONTROL_LOOP_COEFFICIENTS_t
  c2p2z_sepic_histories : C2P2Z_SEPIC_CONTROL_LOOP_HISTORIES_t
  OVRENH : Bool
  reset_calls : Nat
  deriving DecidableEq, Repr

/-- Constants of the absent hardware description header, and the effect of the
absent peripheral set-up and start-up routines on the only register bit of the
model, `PG1IOCONLbits.OVRENH`. -/
structure Board where
  SEPIC_POWER_ON_DELAY : Nat
  SEPIC_RAMP_PERIOD : Nat
  SEPIC_POWER_GOOD_DELAY : Nat
  SEPIC_V_OUT_REF : Nat
  SEPIC_REF_STEP : Nat
  VOUT_ADC_TRIGGER_DELAY : Nat
  SEPIC_ADC_INPUT_OFFSET : Nat
  DAC_MAXIMUM : Int
  DAC_MINIMUM : Int
  init_peripherals_OVRENH : Bool → Bool
  launch_peripherals_OVRENH : Bool → Bool

/-! ## `c2p2z_sepic.c` -/

/-- Value of a 32-bit pattern read as `int32_t`. -/
def toInt32 (n : Nat) : Int :=
  if n % 4294967296 < 2147483648 then (n % 4294967296 : Nat)
  else ((n % 4294967296 : Nat) : Int) - 4294967296

/-- Default A-coefficients (`c2p2z_sepic_ACoefficients`). -/
def c2p2z_sepic_ACoefficients : List Int :=
  [toInt32 0x6F0EFFFF, toInt32 0xA1E50000]

/-- Default B-coefficients (`c2p2z_sepic_BCoefficients`). -/
def c2p2z_sepic_BCoefficients : List Int :=
  [toInt32 0x54DF0000, toInt32 0x73C40006, toInt32 0xACF10000]

def c2p2z_sepic_pre_scaler : Int := 3
def c2p2z_sepic_post_shift_A : Int := 0
def c2p2z_sepic_post_shift_B : Int := 0
def c2p2z_sepic_post_scaler : Int := 0x0000

/-- Array-size globals: `sizeof(array) / sizeof(array[0])`, stored in `uint16_t`. -/
def c2p2z_sepic_ACoefficients_size (s : State) : Nat :=
  s.c2p2z_sepic_coefficients.ACoefficients.length % WORD

def c2p2z_sepic_BCoefficients_size (s : State) : Nat :=
  s.c2p2z_sepic_coefficients.BCoefficients.length % WORD

def c2p2z_sepic_ControlHistory_size (s : State) : Nat :=
  s.c2p2z_sepic_histories.ControlHistory.length % WORD

def c2p2z_sepic_ErrorHistory_size (s : State) : Nat :=
  s.c2p2z_sepic_histories.ErrorHistory.length % WORD

/-- Modelled from the spec: `c2p2z_sepic_Reset` is an assembly routine that is not
among the sources. The spec: "zero both history buffers in place; does not touch
coefficients, scaling parameters, bindings, or `enable`". The call is counted in
`reset_calls`. -/
def c2p2z_sepic_Reset (s : State) : State :=
  { s with
    c2p2z_sepic_histories :=
      { ControlHistory := List.replicate s.c2p2z_sepic_histories.ControlHistory.length 0
        ErrorHistory := List.replicate s.c2p2z_sepic_histories.ErrorHistory.length 0 }
    reset_calls := s.reset_calls + 1 }

/-- The loop `for (i = 0; i < n; i++) dst[i] = src[i];`. A read past the end of
`src` (undefined in C) is taken as `0`. -/
def copy_loop (n : Nat) (src dst : List Int) : List Int :=
  (List.range n).foldl (fun d i => d.set i (src.getD i 0)) dst

/-- `c2p2z_sepic_Init`: loads the defaults into the controller object and the
coefficient arrays, then resets the histories. Returns `1`. -/
def c2p2z_sepic_Init (s : State) : State × Nat :=
  let c : cNPNZ16b_t :=
    { s.c2p2z_sepic with
      enable := false
      status_other := 0
      ptrACoefficients := Loc.coefficients_ACoefficients
      ptrBCoefficients := Loc.coefficients_BCoefficients
      ptrControlHistory := Loc.histories_ControlHistory
      ptrErrorHistory := Loc.histories_ErrorHistory
      normPostShiftA := c2p2z_sepic_post_shift_A
      normPostShiftB := c2p2z_sepic_post_shift_B
      normPostScaler := c2p2z_sepic_post_scaler
      normPreShift := c2p2z_sepic_pre_scaler
      ACoefficientsArraySize := c2p2z_sepic_ACoefficients_size s
      BCoefficientsArraySize := c2p2z_sepic_BCoefficients_size s
      ControlHistoryArraySize := c2p2z_sepic_ControlHistory_size s
      ErrorHistoryArraySize := c2p2z_sepic_ErrorHistory_size s }
  let k : C2P2Z_SEPIC_CONTROL_LOOP_COEFFICIENTS_t :=
    { ACoefficients :=
        copy_loop c.ACoefficientsArraySize c2p2z_sepic_ACoefficients
          s.c2p2z_sepic_coefficients.ACoefficients
      BCoefficients :=
        copy_loop c.BCoefficientsArraySize c2p2z_sepic_BCoefficients
          s.c2p2z_sepic_coefficients.BCoefficients }
  (c2p2z_sepic_Reset { s with c2p2z_sepic := c, c2p2z_sepic_coefficients := k }, 1)

/-! ## `sepic_pwr_control.c` -/

/-- `init_sepic_pwr_control`: peripheral set-up (absent routines, see `Board`),
soft-start settings, compensator initialisation and bindings. Returns `1`. -/
def init_sepic_pwr_control (b : Board) (s : State) : State × Nat :=
  let s1 : State := { s with OVRENH := b.init_peripherals_OVRENH s.OVRENH }
  let s2 : State :=
    { s1 with
      sepic.soft_start.counter := 0
      sepic.soft_start.pwr_on_delay := b.SEPIC_POWER_ON_DELAY % WORD
      sepic.soft_start.ramp_period := b.SEPIC_RAMP_PERIOD % WORD
      sepic.soft_start.pwr_good_delay := b.SEPIC_POWER_GOOD_DELAY % WORD
      sepic.soft_start.reference := b.SEPIC_V_OUT_REF % WORD
      sepic.soft_start.ramp_ref_increment := b.SEPIC_REF_STEP % WORD }
  let s3 : State := (c2p2z_sepic_Init s2).1
  let s4 : State :=
    { s3 with
      c2p2z_sepic.ADCTriggerOffset := b.VOUT_ADC_TRIGGER_DELAY % WORD
      c2p2z_sepic.ptrADCTriggerRegister := Loc.SEPIC_VOUT_ADCTRIG
      c2p2z_sepic.InputOffset := b.SEPIC_ADC_INPUT_OFFSET % WORD
      c2p2z_sepic.ptrControlReference := Loc.data_v_ref
      c2p2z_sepic.ptrSource := Loc.SEPIC_VOUT_ADCBUF
      c2p2z_sepic.ptrTarget := Loc.SEPIC_PCMC_DAC
      c2p2z_sepic.MaxOutput := b.DAC_MAXIMUM
      c2p2z_sepic.MinOutput := b.DAC_MINIMUM
      c2p2z_sepic.enable := false }
  ({ s4 with sepic.data.v_ref := 0 }, 1)

/-- `launch_sepic_pwr_control`: peripheral start-up (absent routines, see
`Board`), then reset of the control loop histories. Returns `1`. -/
def launch_sepic_pwr_control (b : Board) (s : State) : State × Nat :=
  let s1 : State := { s with OVRENH := b.launch_peripherals_OVRENH s.OVRENH }
  (c2p2z_sepic_Reset s1, 1)

/-- The `switch` of `exec_sepic_pwr_control`, one arm per `case`. -/
def exec_switch (b : Board) (s : State) : State :=
  match s.sepic.soft_start.phase with
  | SEPIC_SS_INIT =>
    let s1 := (init_sepic_pwr_control b s).1
    { s1 with
      sepic.status.op_status := SEPIC_STAT_OFF
      sepic.soft_start.phase := SEPIC_SS_LAUNCH_PER }
  | SEPIC_SS_LAUNCH_PER =>
    let s1 := (launch_sepic_pwr_control b s).1
    { s1 with
      sepic.status.op_status := SEPIC_STAT_OFF
      sepic.soft_start.phase := SEPIC_SS_STANDBY }
  | SEPIC_SS_STANDBY =>
    let s1 : State :=
      { s with
        sepic.status.op_status := SEPIC_STAT_STANDBY
        OVRENH := true
        c2p2z_sepic.enable := false
        sepic.status.pwm_active := false }
    if s1.sepic.status.enabled = true ∧ s1.sepic.status.adc_active = true ∧
        s1.sepic.status.fault_active = false ∧ s1.sepic.status.GO = true then
      { s1 with
        sepic.soft_start.counter := 0
        sepic.soft_start.phase := SEPIC_SS_PWR_ON_DELAY }
    else s1
  | SEPIC_SS_PWR_ON_DELAY =>
    let s1 : State := { s with sepic.status.op_status := SEPIC_STAT_START }
    let s2 : State :=
      { s1 with sepic.soft_start.counter := (s1.sepic.soft_start.counter + 1) % WORD }
    if s1.sepic.soft_start.counter > s1.sepic.soft_start.pwr_on_delay then
      { s2 with
        sepic.soft_start.reference := 0
        c2p2z_sepic.ptrControlReference := Loc.soft_start_reference
        sepic.soft_start.counter := 0
        sepic.soft_start.phase := SEPIC_SS_RAMP_UP }
    else s2
  | SEPIC_SS_RAMP_UP =>
    let s1 : State :=
      { s with
        sepic.status.op_status := SEPIC_STAT_START
        OVRENH := false
        c2p2z_sepic.enable := true }
    let s2 : State :=
      { s1 with sepic.soft_start.reference := (s1.sepic.soft_start.reference + 4) % WORD }
    if s2.sepic.soft_start.reference ≥ s2.sepic.data.v_ref then
      { s2 with
        sepic.soft_start.counter := 0
        sepic.soft_start.phase := SEPIC_SS_PWR_GOOD_DELAY }
    else s2
  | SEPIC_SS_PWR_GOOD_DELAY =>
    let s1 : State := { s with sepic.status.op_status := SEPIC_STAT_START }
    let s2 : State :=
      { s1 with sepic.soft_start.counter := (s1.sepic.soft_start.counter + 1) % WORD }
    if s1.sepic.soft_start.counter > s1.sepic.soft_start.pwr_good_delay then
      { s2 with
        sepic.soft_start.counter := 0
        sepic.soft_start.phase := SEPIC_SS_COMPLETE }
    else s2
  | SEPIC_SS_COMPLETE =>
    { s with
      sepic.status.op_status := SEPIC_STAT_ON
      c2p2z_sepic.ptrControlReference := Loc.data_v_ref }
  | undefined_phase _ =>
    { s with
      sepic.status.op_status := SEPIC_STAT_FAULT
      sepic.status.fault_active := true
      sepic.status.adc_active := false
      sepic.soft_start.phase := SEPIC_SS_STANDBY }

/-- The auto-start block that follows the `switch`. -/
def exec_auto_start (s : State) : State :=
  if s.sepic.status.auto_start = true then
    { s with
      sepic.status.enabled := true
      sepic.status.GO := true }
  else
    { s with sepic.status.GO := false }

/-- `exec_sepic_pwr_control`: the `switch` on the phase, then the auto-start
block; returns `1`. -/
def exec_sepic_pwr_control (b : Board) (s : State) : State × Nat :=
  (exec_auto_start (exec_switch b s), 1)

/-- State after one call of `exec_sepic_pwr_control` (one scheduler tick). -/
def Step (b : Board) (s : State) : State :=
  (exec_sepic_pwr_control b s).1

/-- State after `n` consecutive calls of `exec_sepic_pwr_control`. -/
def Steps (b : Board) : Nat → State → State
  | 0, s => s
  | n + 1, s => Step b (Steps b n s)

/-! ## The compensator update and the sampling interrupt -/

/-- Modelled from the spec: what the contract of the filter evaluation leaves
open. `safe_value` is the "defined safe value (typically the lower output bound
or zero)" written while the loop is disabled; `normalise` is the three-stage
scaling (pre-shift, the two post-shifts, post-scaler, truncation to the output
width) that maps the two accumulators to the unclamped output and that the spec
treats as a black box. -/
structure UpdateModel where
  safe_value : Int
  normalise : cNPNZ16b_t → Int → Int → Int

/-- The value behind `ptrControlReference`: the external target, the soft-start
reference, or (no other location holds a reference) `0`. -/
def control_reference (s : State) : Int :=
  match s.c2p2z_sepic.ptrControlReference with
  | Loc.data_v_ref => (s.sepic.data.v_ref : Int)
  | Loc.soft_start_reference => (s.sepic.soft_start.reference : Int)
  | _ => 0

/-- A fixed-size sliding window, most recent first: the new entry goes in front
and the oldest one is dropped. -/
def push_history (x : Int) (h : List Int) : List Int :=
  (x :: h).take h.length

/-- Sum of the products of coefficients and history entries, index by index. -/
def accumulate (c h : List Int) : Int :=
  (List.zipWith (fun a x => a * x) c h).sum

/-- Clamp of `x` into the bounds `lo`, `hi`. -/
def clamp (lo hi x : Int) : Int :=
  if x > hi then hi else if x < lo then lo else x

/-- Modelled from the spec: `c2p2z_sepic_Update` is an assembly routine that is
not among the sources. The spec (Evaluate): subtract the input offset from the
sample, take the error against the bound reference, push it into the error
history, accumulate the B-coefficients against the error history and the
A-coefficients against the output history, normalise, clamp into the output
bounds, push the result into the output history, write it to the actuator target
and return it. With `enable` clear all of this is skipped, the histories stay as
they are and the safe value is written. The second component is the value
written to the actuator target. -/
def c2p2z_sepic_Update (m : UpdateModel) (sample : Nat) (s : State) : State × Int :=
  if s.c2p2z_sepic.enable = true then
    let adjusted : Int := (sample : Int) - (s.c2p2z_sepic.InputOffset : Int)
    let error : Int := control_reference s - adjusted
    let eh := push_history error s.c2p2z_sepic_histories.ErrorHistory
    let accB := accumulate s.c2p2z_sepic_coefficients.BCoefficients eh
    let accA := accumulate s.c2p2z_sepic_coefficients.ACoefficients
      s.c2p2z_sepic_histories.ControlHistory
    let out := clamp s.c2p2z_sepic.MinOutput s.c2p2z_sepic.MaxOutput
      (m.normalise s.c2p2z_sepic accB accA)
    ({ s with
       c2p2z_sepic_histories :=
         { ControlHistory := push_history out s.c2p2z_sepic_histories.ControlHistory
           ErrorHistory := eh } }, out)
  else (s, m.safe_value)

/-- `_SEPIC_VOUT_ADCInterrupt`: the sampling interrupt. `adcbuf` is the content
of the 16-bit register `SEPIC_VOUT_ADCBUF`; the second component is the value the
update writes to the actuator target `SEPIC_PCMC_DAC`. -/
def _SEPIC_VOUT_ADCInterrupt (m : UpdateModel) (adcbuf : Nat) (s : State) : State × Int :=
  let s1 : State := { s with sepic.status.adc_active := true }
  let s2 : State := { s1 with sepic.data.v_out := adcbuf % WORD }
  c2p2z_sepic_Update m (adcbuf % WORD) s2

/-- What can happen between two observations of the controller: a call of
`exec_sepic_pwr_control`, a sampling interrupt, or a write from outside to the
status flags and to `data.v_ref`. -/
inductive Event where
  | tick
  | sample (adcbuf : Nat)
  | write (flags : SEPIC_STATUS_FLAGS_t) (v_ref : Nat)
  deriving DecidableEq, Repr

/-- Effect of one event. -/
def apply_event (b : Board) (m : UpdateModel) (e : Event) (s : State) : State :=
  match e with
  | Event.tick => Step b s
  | Event.sample adcbuf => (_SEPIC_VOUT_ADCInterrupt m adcbuf s).1
  | Event.write flags v_ref => { s with sepic.status := flags, sepic.data.v_ref := v_ref }

/-- Effect of a sequence of events, the head first. -/
def run_events (b : Board) (m : UpdateModel) : List Event → State → State
  | [], s => s
  | e :: es, s => run_events b m es (apply_event b m e s)

/-- True for the events that leave a raised fault flag raised: every call, every
sampling interrupt, and the outside writes that do not clear `fault_active`. -/
def Event.keeps_fault : Event → Bool
  | Event.tick => true
  | Event.sample _ => true
  | Event.write flags _ => flags.fault_active

/-- The status the supervisor reports for a call entered in phase `p`. -/
def op_status_of_phase : SEPIC_SS_PHASE → SEPIC_STAT
  | SEPIC_SS_INIT => SEPIC_STAT_OFF
  | SEPIC_SS_LAUNCH_PER => SEPIC_STAT_OFF
  | SEPIC_SS_STANDBY => SEPIC_STAT_STANDBY
  | SEPIC_SS_PWR_ON_DELAY => SEPIC_STAT_START
  | SEPIC_SS_RAMP_UP => SEPIC_STAT_START
  | SEPIC_SS_PWR_GOOD_DELAY => SEPIC_STAT_START
  | SEPIC_SS_COMPLETE => SEPIC_STAT_ON
  | undefined_phase _ => SEPIC_STAT_FAULT

/-- The loop is enabled only in RAMP_UP, PWR_GOOD_DELAY or COMPLETE. -/
def enable_only_when_running (s : State) : Prop :=
  s.c2p2z_sepic.enable = false ∨
    s.sepic.soft_start.phase = SEPIC_SS_RAMP_UP ∨
    s.sepic.soft_start.phase = SEPIC_SS_PWR_GOOD_DELAY ∨
    s.sepic.soft_start.phase = SEPIC_SS_COMPLETE

/-! ## Concrete boards and states used in the instances below -/

/-- A board: short delays, the peripheral set-up inhibits the PWM output, the
start-up leaves the override as it is. -/
def board0 : Board :=
  { SEPIC_POWER_ON_DELAY := 3
    SEPIC_RAMP_PERIOD := 50
    SEPIC_POWER_GOOD_DELAY := 2
    SEPIC_V_OUT_REF := 1000
    SEPIC_REF_STEP := 4
    VOUT_ADC_TRIGGER_DELAY := 80
    SEPIC_ADC_INPUT_OFFSET := 0
    DAC_MAXIMUM := 3600
    DAC_MINIMUM := 50
    init_peripherals_OVRENH := fun _ => true
    launch_peripherals_OVRENH := fun v => v }

/-- The zero-initialised globals at reset: phase `SEPIC_SS_INIT`, every flag
clear, arrays of two A-coefficients, three B-coefficients, two control-history
and three error-history words. -/
def state0 : State :=
  { sepic :=
      { soft_start :=
          { reference := 0, ramp_ref_increment := 0, pwr_on_delay := 0, ramp_period := 0
            pwr_good_delay := 0, counter := 0, phase := SEPIC_SS_INIT }
        status :=
          { op_status := SEPIC_STAT_OFF, pwm_active := false, adc_active := false
            fault_active := false, GO := false, auto_start := false, enabled := false }
        data := { v_ref := 0, v_out := 0 } }
    c2p2z_sepic :=
      { enable := false, status_other := 0
        ptrACoefficients := Loc.null, ptrBCoefficients := Loc.null
        ptrControlHistory := Loc.null, ptrErrorHistory := Loc.null
        normPostShiftA := 0, normPostShiftB := 0, normPostScaler := 0, normPreShift := 0
        ACoefficientsArraySize := 0, BCoefficientsArraySize := 0
        ControlHistoryArraySize := 0, ErrorHistoryArraySize := 0
        ADCTriggerOffset := 0, ptrADCTriggerRegister := Loc.null, InputOffset := 0
        ptrControlReference := Loc.null, ptrSource := Loc.null, ptrTarget := Loc.null
        MaxOutput := 0, MinOutput := 0 }
    c2p2z_sepic_coefficients := { ACoefficients := [0, 0], BCoefficients := [0, 0, 0] }
    c2p2z_sepic_histories := { ControlHistory := [0, 0], ErrorHistory := [0, 0, 0] }
    OVRENH := false
    reset_calls := 0 }

/-- A running converter (loop enabled, PWM released) whose phase word has been
overwritten with the unhandled value `7`. -/
def state_corrupt : State :=
  { state0 with
    sepic.soft_start.phase := undefined_phase 7
    sepic.soft_start.pwr_on_delay := 3
    sepic.soft_start.pwr_good_delay := 2
    sepic.status.adc_active := true
    sepic.status.enabled := true
    sepic.status.pwm_active := true
    sepic.data.v_ref := 1000
    c2p2z_sepic.enable := true }

/-- Waiting in STANDBY with every start condition met and auto-start off; the
external target is `1000`. -/
def state_standby_go : State :=
  { state0 with
    sepic.soft_start.phase := SEPIC_SS_STANDBY
    sepic.soft_start.counter := 9
    sepic.soft_start.reference := 1000
    sepic.soft_start.ramp_ref_increment := 4
    sepic.soft_start.pwr_on_delay := 3
    sepic.soft_start.pwr_good_delay := 2
    sepic.status.adc_active := true
    sepic.status.enabled := true
    sepic.status.GO := true
    sepic.data.v_ref := 1000 }

/-- Waiting in STANDBY with auto-start set, the ADC running and no fault, but
`enabled` and `GO` still clear. -/
def state_standby_auto : State :=
  { state0 with
    sepic.soft_start.phase := SEPIC_SS_STANDBY
    sepic.status.adc_active := true
    sepic.status.auto_start := true }

/-- In the power-on delay with `pwr_on_delay = 3`, counter at `0`. -/
def state_delay : State :=
  { state0 with
    sepic.soft_start.phase := SEPIC_SS_PWR_ON_DELAY
    sepic.soft_start.pwr_on_delay := 3
    sepic.soft_start.reference := 1000
    sepic.data.v_ref := 1000 }

/-- In the power-on delay with the largest 16-bit delay, counter at `0`. -/
def state_delay_max : State :=
  { state0 with
    sepic.soft_start.phase := SEPIC_SS_PWR_ON_DELAY
    sepic.soft_start.pwr_on_delay := 65535 }

/-- At the start of the ramp (`reference = 0`) with external target `T`. -/
def state_ramp (T : Nat) : State :=
  { state0 with
    sepic.soft_start.phase := SEPIC_SS_RAMP_UP
    sepic.soft_start.ramp_ref_increment := 4
    sepic.data.v_ref := T }

/-- The state in which the start-up out of `state_standby_go` enters RAMP_UP:
one call leaves STANDBY, five more run the power-on delay of `3`. -/
def state_ramp_entry : State :=
  Steps board0 6 state_standby_go

/-- In the ramp with a configured increment of `1`. -/
def state_ramp_inc : State :=
  { state0 with
    sepic.soft_start.phase := SEPIC_SS_RAMP_UP
    sepic.soft_start.reference := 100
    sepic.soft_start.ramp_ref_increment := 1
    sepic.data.v_ref := 1000 }

/-- A regulating converter with auto-start set, the histories as the running
loop left them and two reset calls behind it (start-up), whose phase word is
then overwritten with the unhandled value `7`. -/
def state_running : State :=
  { state0 with
    sepic.soft_start.phase := undefined_phase 7
    sepic.soft_start.pwr_on_delay := 3
    sepic.soft_start.pwr_good_delay := 2
    sepic.soft_start.reference := 1000
    sepic.status.op_status := SEPIC_STAT_ON
    sepic.status.adc_active := true
    sepic.status.auto_start := true
    sepic.status.enabled := true
    sepic.status.GO := true
    sepic.status.pwm_active := true
    sepic.data.v_ref := 1000
    c2p2z_sepic.enable := true
    c2p2z_sepic.ptrControlReference := Loc.data_v_ref
    c2p2z_sepic_histories := { ControlHistory := [812, 810], ErrorHistory := [3, -2, 5] }
    reset_calls := 2 }

/-- The environment after a fault: the fault flag is cleared from outside and
the sampling interrupt has set `adc_active` again. -/
def fault_cleared (s : State) : State :=
  { s with
    sepic.status.fault_active := false
    sepic.status.adc_active := true }

/-- The reset state with history arrays of three control and two error words,
against two A- and three B-coefficients. -/
def state_mismatch : State :=
  { state0 with
    c2p2z_sepic_histories := { ControlHistory := [0, 0, 0], ErrorHistory := [0, 0] } }

/-- Idle in STANDBY, histories as a stopped loop left them. -/
def state_standby_idle : State :=
  { state0 with
    sepic.soft_start.phase := SEPIC_SS_STANDBY
    c2p2z_sepic_histories := { ControlHistory := [812, 810], ErrorHistory := [3, -2, 5] } }

/-- STANDBY with auto-start set and `enabled`, `GO` already forced. -/
def state_standby_armed : State :=
  { state0 with
    sepic.soft_start.phase := SEPIC_SS_STANDBY
    sepic.status.adc_active := true
    sepic.status.auto_start := true
    sepic.status.enabled := true
    sepic.status.GO := true }

/-- COMPLETE with a fault flagged and the ADC flag clear. -/
def state_complete : State :=
  { state0 with
    sepic.soft_start.phase := SEPIC_SS_COMPLETE
    sepic.soft_start.counter := 5
    sepic.soft_start.reference := 1000
    sepic.status.fault_active := true
    sepic.status.adc_active := false
    sepic.data.v_ref := 900
    c2p2z_sepic.enable := true
    c2p2z_sepic.ptrControlReference := Loc.soft_start_reference }

/-- An update model: the lower output bound of `board0` as safe value, the sum of
the two accumulators scaled down by `2 ^ 15` as normalisation. -/
def update0 : UpdateModel :=
  { safe_value := 50
    normalise := fun _ accB accA => (accB + accA) / 32768 }

/-- In the power-good delay with `pwr_good_delay = 2`, counter at `0`, the loop
running on the soft-start reference. -/
def state_good_delay : State :=
  { state0 with
    sepic.soft_start.phase := SEPIC_SS_PWR_GOOD_DELAY
    sepic.soft_start.pwr_on_delay := 3
    sepic.soft_start.pwr_good_delay := 2
    sepic.soft_start.reference := 1000
    sepic.data.v_ref := 1000
    c2p2z_sepic.enable := true
    c2p2z_sepic.ptrControlReference := Loc.soft_start_reference }

/-- In the power-good delay with the largest 16-bit delay, counter at `0`. -/
def state_good_delay_max : State :=
  { state0 with
    sepic.soft_start.phase := SEPIC_SS_PWR_GOOD_DELAY
    sepic.soft_start.pwr_good_delay := 65535
    c2p2z_sepic.enable := true }

/-- The reset state one step on: peripherals and compensator initialised, phase
LAUNCH_PER. -/
def state_launch : State :=
  { state0 with sepic.soft_start.phase := SEPIC_SS_LAUNCH_PER }

/-- STANDBY right after a fault step: fault flagged, the loop still enabled and
the PWM output still released. -/
def state_standby_fault : State :=
  { state0 with
    sepic.soft_start.phase := SEPIC_SS_STANDBY
    sepic.status.op_status := SEPIC_STAT_FAULT
    sepic.status.fault_active := true
    sepic.status.auto_start := true
    sepic.status.enabled := true
    sepic.status.GO := true
    sepic.data.v_ref := 1000
    c2p2z_sepic.enable := true }

/-- Every start flag raised, the fault flag left raised. -/
def flags_start_faulted : SEPIC_STATUS_FLAGS_t :=
  { op_status := SEPIC_STAT_STANDBY, pwm_active := false, adc_active := true
    fault_active := true, GO := true, auto_start := true, enabled := true }

/-- Every start flag raised, no fault. -/
def flags_start : SEPIC_STATUS_FLAGS_t :=
  { op_status := SEPIC_STAT_OFF, pwm_active := false, adc_active := true
    fault_active := false, GO := true, auto_start := false, enabled := true }

/-- Interrupts, calls and an outside write that keeps the fault flag raised. -/
def events_faulted : List Event :=
  [Event.sample 512, Event.tick, Event.write flags_start_faulted 1000, Event.tick,
    Event.sample 500, Event.tick]

/-- After the INIT step: the launch call, a start request with target `8` from
outside, then calls and interrupts through the power-on delay of `3` into the
ramp. -/
def events_start : List Event :=
  [Event.tick, Event.write flags_start 8, Event.sample 100, Event.tick, Event.tick,
    Event.tick, Event.sample 101, Event.tick, Event.tick, Event.tick, Event.tick,
    Event.sample 102]

theorem Step_eq (b : Board) (s : State) :
    Step b s = exec_auto_start (exec_switch b s) := rfl

theorem exec_auto_start_soft_start (s : State) :
    (exec_auto_start s).sepic.soft_start = s.sepic.soft_start := by
  unfold exec_auto_start; split <;> rfl

theorem exec_auto_start_data (s : State) :
    (exec_auto_start s).sepic.data = s.sepic.data := by
  unfold exec_auto_start; split <;> rfl

theorem exec_auto_start_c2p2z (s : State) :
    (exec_auto_start s).c2p2z_sepic = s.c2p2z_sepic := by
  unfold exec_auto_start; split <;> rfl

theorem exec_auto_start_histories (s : State) :
    (exec_auto_start s).c2p2z_sepic_histories = s.c2p2z_sepic_histories := by
  unfold exec_auto_start; split <;> rfl

theorem exec_auto_start_coefficients (s : State) :
    (exec_auto_start s).c2p2z_sepic_coefficients = s.c2p2z_sepic_coefficients := by
  unfold exec_auto_start; split <;> rfl

theorem exec_auto_start_OVRENH (s : State) :
    (exec_auto_start s).OVRENH = s.OVRENH := by
  unfold exec_auto_start; split <;> rfl

theorem exec_auto_start_reset_calls (s : State) :
    (exec_auto_start s).reset_calls = s.reset_calls := by
  unfold exec_auto_start; split <;> rfl

theorem exec_auto_start_op_status (s : State) :
    (exec_auto_start s).sepic.status.op_status = s.sepic.status.op_status := by
  unfold exec_auto_start; split <;> rfl

theorem exec_auto_start_pwm_active (s : State) :
    (exec_auto_start s).sepic.status.pwm_active = s.sepic.status.pwm_active := by
  unfold exec_auto_start; split <;> rfl

theorem exec_auto_start_adc_active (s : State) :
    (exec_auto_start s).sepic.status.adc_active = s.sepic.status.adc_active := by
  unfold exec_auto_start; split <;> rfl

theorem exec_auto_start_fault_active (s : State) :
    (exec_auto_start s).sepic.status.fault_active = s.sepic.status.fault_active := by
  unfold exec_auto_start; split <;> rfl

theorem exec_auto_start_auto_start (s : State) :
    (exec_auto_start s).sepic.status.auto_start = s.sepic.status.auto_start := by
  unfold exec_auto_start; split <;> rfl

theorem exec_auto_start_GO (s : State) :
    (exec_auto_start s).sepic.status.GO = s.sepic.status.auto_start := by
  unfold exec_auto_start; split <;> simp_all

theorem exec_auto_start_enabled (s : State) :
    (exec_auto_start s).sepic.status.enabled =
      (s.sepic.status.auto_start || s.sepic.status.enabled) := by
  unfold exec_auto_start; split <;> simp_all

/-- The `switch` never writes `auto_start` or `enabled`. -/
theorem exec_switch_auto_start_enabled (b : Board) (s : State) :
    (exec_switch b s).sepic.status.auto_start = s.sepic.status.auto_start ∧
    (exec_switch b s).sepic.status.enabled = s.sepic.status.enabled := by
  unfold exec_switch
  split <;> dsimp only <;> (try split) <;> exact ⟨rfl, rfl⟩

/-! ## The `switch`, arm by arm -/

/-- Result of the `switch` in INIT. -/
theorem exec_switch_init (b : Board) (s : State)
    (hp : s.sepic.soft_start.phase = SEPIC_SS_INIT) :
    exec_switch b s =
      { (init_sepic_pwr_control b s).1 with
        sepic.status.op_status := SEPIC_STAT_OFF
        sepic.soft_start.phase := SEPIC_SS_LAUNCH_PER } := by
  unfold exec_switch
  rw [hp]

/-- Result of the `switch` in LAUNCH_PER. -/
theorem exec_switch_launch_per (b : Board) (s : State)
    (hp : s.sepic.soft_start.phase = SEPIC_SS_LAUNCH_PER) :
    exec_switch b s =
      { (launch_sepic_pwr_control b s).1 with
        sepic.status.op_status := SEPIC_STAT_OFF
        sepic.soft_start.phase := SEPIC_SS_STANDBY } := by
  unfold exec_switch
  rw [hp]

/-- Result of the `switch` in STANDBY. -/
theorem exec_switch_standby (b : Board) (s : State)
    (hp : s.sepic.soft_start.phase = SEPIC_SS_STANDBY) :
    exec_switch b s =
      if s.sepic.status.enabled = true ∧ s.sepic.status.adc_active = true ∧
          s.sepic.status.fault_active = false ∧ s.sepic.status.GO = true then
        { s with
          sepic.status.op_status := SEPIC_STAT_STANDBY
          OVRENH := true
          c2p2z_sepic.enable := false
          sepic.status.pwm_active := false
          sepic.soft_start.counter := 0
          sepic.soft_start.phase := SEPIC_SS_PWR_ON_DELAY }
      else
        { s with
          sepic.status.op_status := SEPIC_STAT_STANDBY
          OVRENH := true
          c2p2z_sepic.enable := false
          sepic.status.pwm_active := false } := by
  unfold exec_switch
  rw [hp]

/-- Result of the `switch` in PWR_ON_DELAY. -/
theorem exec_switch_pwr_on_delay (b : Board) (s : State)
    (hp : s.sepic.soft_start.phase = SEPIC_SS_PWR_ON_DELAY) :
    exec_switch b s =
      if s.sepic.soft_start.counter > s.sepic.soft_start.pwr_on_delay then
        { s with
          sepic.status.op_status := SEPIC_STAT_START
          sepic.soft_start.reference := 0
          c2p2z_sepic.ptrControlReference := Loc.soft_start_reference
          sepic.soft_start.counter := 0
          sepic.soft_start.phase := SEPIC_SS_RAMP_UP }
      else
        { s with
          sepic.status.op_status := SEPIC_STAT_START
          sepic.soft_start.counter := (s.sepic.soft_start.counter + 1) % WORD } := by
  unfold exec_switch
  rw [hp]

/-- Result of the `switch` in RAMP_UP. -/
theorem exec_switch_ramp_up (b : Board) (s : State)
    (hp : s.sepic.soft_start.phase = SEPIC_SS_RAMP_UP) :
    exec_switch b s =
      if (s.sepic.soft_start.reference + 4) % WORD ≥ s.sepic.data.v_ref then
        { s with
          sepic.status.op_status := SEPIC_STAT_START
          OVRENH := false
          c2p2z_sepic.enable := true
          sepic.soft_start.reference := (s.sepic.soft_start.reference + 4) % WORD
          sepic.soft_start.counter := 0
          sepic.soft_start.phase := SEPIC_SS_PWR_GOOD_DELAY }
      else
        { s with
          sepic.status.op_status := SEPIC_STAT_START
          OVRENH := false
          c2p2z_sepic.enable := true
          sepic.soft_start.reference := (s.sepic.soft_start.reference + 4) % WORD } := by
  unfold exec_switch
  rw [hp]

/-- Result of the `switch` in PWR_GOOD_DELAY. -/
theorem exec_switch_pwr_good_delay (b : Board) (s : State)
    (hp : s.sepic.soft_start.phase = SEPIC_SS_PWR_GOOD_DELAY) :
    exec_switch b s =
      if s.sepic.soft_start.counter > s.sepic.soft_start.pwr_good_delay then
        { s with
          sepic.status.op_status := SEPIC_STAT_START
          sepic.soft_start.counter := 0
          sepic.soft_start.phase := SEPIC_SS_COMPLETE }
      else
        { s with
          sepic.status.op_status := SEPIC_STAT_START
          sepic.soft_start.counter := (s.sepic.soft_start.counter + 1) % WORD } := by
  unfold exec_switch
  rw [hp]

/-- Result of the `switch` in COMPLETE. -/
theorem exec_switch_complete (b : Board) (s : State)
    (hp : s.sepic.soft_start.phase = SEPIC_SS_COMPLETE) :
    exec_switch b s =
      { s with
        sepic.status.op_status := SEPIC_STAT_ON
        c2p2z_sepic.ptrControlReference := Loc.data_v_ref } := by
  unfold exec_switch
  rw [hp]

/-- Result of the `switch` in its `default` arm. -/
theorem exec_switch_default (b : Board) (s : State) (raw : Nat)
    (hp : s.sepic.soft_start.phase = undefined_phase raw) :
    exec_switch b s =
      { s with
        sepic.status.op_status := SEPIC_STAT_FAULT
        sepic.status.fault_active := true
        sepic.status.adc_active := false
        sepic.soft_start.phase := SEPIC_SS_STANDBY } := by
  unfold exec_switch
  rw [hp]

/-- Outside INIT and LAUNCH_PER the `switch` neither writes the histories nor
invokes the reset routine, and it never selects INIT or LAUNCH_PER. -/
theorem exec_switch_histories (b : Board) (t : State)
    (h1 : t.sepic.soft_start.phase ≠ SEPIC_SS_INIT)
    (h2 : t.sepic.soft_start.phase ≠ SEPIC_SS_LAUNCH_PER) :
    (exec_switch b t).c2p2z_sepic_histories = t.c2p2z_sepic_histories ∧
    (exec_switch b t).reset_calls = t.reset_calls ∧
    (exec_switch b t).sepic.soft_start.phase ≠ SEPIC_SS_INIT ∧
    (exec_switch b t).sepic.soft_start.phase ≠ SEPIC_SS_LAUNCH_PER := by
  cases hp : t.sepic.soft_start.phase with
  | SEPIC_SS_INIT => exact absurd hp h1
  | SEPIC_SS_LAUNCH_PER => exact absurd hp h2
  | SEPIC_SS_STANDBY =>
    rw [exec_switch_standby b t hp]
    split <;> simp [hp]
  | SEPIC_SS_PWR_ON_DELAY =>
    rw [exec_switch_pwr_on_delay b t hp]
    split <;> simp [hp]
  | SEPIC_SS_RAMP_UP =>
    rw [exec_switch_ramp_up b t hp]
    split <;> simp [hp]
  | SEPIC_SS_PWR_GOOD_DELAY =>
    rw [exec_switch_pwr_good_delay b t hp]
    split <;> simp [hp]
  | SEPIC_SS_COMPLETE =>
    rw [exec_switch_complete b t hp]
    simp [hp]
  | undefined_phase raw =>
    rw [exec_switch_default b t raw hp]
    simp

/-- Once INIT and LAUNCH_PER are behind, no number of calls invokes the reset
routine or writes the histories. -/
theorem steps_histories (b : Board) (t : State)
    (h1 : t.sepic.soft_start.phase ≠ SEPIC_SS_INIT)
    (h2 : t.sepic.soft_start.phase ≠ SEPIC_SS_LAUNCH_PER) (n : Nat) :
    (Steps b n t).c2p2z_sepic_histories = t.c2p2z_sepic_histories ∧
    (Steps b n t).reset_calls = t.reset_calls ∧
    (Steps b n t).sepic.soft_start.phase ≠ SEPIC_SS_INIT ∧
    (Steps b n t).sepic.soft_start.phase ≠ SEPIC_SS_LAUNCH_PER := by
  induction n with
  | zero => exact ⟨rfl, rfl, h1, h2⟩
  | succ k ih =>
    obtain ⟨i1, i2, i3, i4⟩ := ih
    obtain ⟨j1, j2, j3, j4⟩ := exec_switch_histories b (Steps b k t) i3 i4
    show (Step b (Steps b k t)).c2p2z_sepic_histories = _ ∧
      (Step b (Steps b k t)).reset_calls = _ ∧
      (Step b (Steps b k t)).sepic.soft_start.phase ≠ _ ∧
      (Step b (Steps b k t)).sepic.soft_start.phase ≠ _
    rw [Step_eq, exec_auto_start_histories, exec_auto_start_reset_calls,
      exec_auto_start_soft_start, j1, j2, i1, i2]
    exact ⟨rfl, rfl, j3, j4⟩

/-- Running `m` calls and then `n` more is running `m + n` calls. -/
theorem Steps_add (b : Board) (s : State) (m n : Nat) :
    Steps b (m + n) s = Steps b n (Steps b m s) := by
  induction n with
  | zero => rfl
  | succ k ih =>
    show Step b (Steps b (m + k) s) = Step b (Steps b k (Steps b m s))
    rw [ih]

/-- A step of the power-on delay that does not expire: the counter advances. -/
theorem step_pwr_on_delay_wait (b : Board) (s : State)
    (hp : s.sepic.soft_start.phase = SEPIC_SS_PWR_ON_DELAY)
    (hc : s.sepic.soft_start.counter ≤ s.sepic.soft_start.pwr_on_delay) :
    (Step b s).sepic.soft_start =
      { s.sepic.soft_start with counter := (s.sepic.soft_start.counter + 1) % WORD } ∧
    (Step b s).c2p2z_sepic = s.c2p2z_sepic ∧
    (Step b s).OVRENH = s.OVRENH ∧
    (Step b s).sepic.data = s.sepic.data := by
  rw [Step_eq, exec_auto_start_soft_start, exec_auto_start_c2p2z, exec_auto_start_OVRENH,
    exec_auto_start_data, exec_switch_pwr_on_delay b s hp, if_neg (Nat.not_lt.mpr hc)]
  exact ⟨rfl, rfl, rfl, rfl⟩

/-- The step of the power-on delay that expires. -/
theorem step_pwr_on_delay_expire (b : Board) (s : State)
    (hp : s.sepic.soft_start.phase = SEPIC_SS_PWR_ON_DELAY)
    (hc : s.sepic.soft_start.counter > s.sepic.soft_start.pwr_on_delay) :
    (Step b s).sepic.soft_start =
      { s.sepic.soft_start with reference := 0, counter := 0, phase := SEPIC_SS_RAMP_UP } ∧
    (Step b s).c2p2z_sepic =
      { s.c2p2z_sepic with ptrControlReference := Loc.soft_start_reference } ∧
    (Step b s).OVRENH = s.OVRENH ∧
    (Step b s).sepic.data = s.sepic.data := by
  rw [Step_eq, exec_auto_start_soft_start, exec_auto_start_c2p2z, exec_auto_start_OVRENH,
    exec_auto_start_data, exec_switch_pwr_on_delay b s hp, if_pos hc]
  exact ⟨rfl, rfl, rfl, rfl⟩

/-- While the power-on delay runs, the counter equals the number of calls. -/
theorem steps_pwr_on_delay_wait (b : Board) (s : State) (N : Nat) (hN : N ≤ 65534)
    (hp : s.sepic.soft_start.phase = SEPIC_SS_PWR_ON_DELAY)
    (hc : s.sepic.soft_start.counter = 0)
    (hd : s.sepic.soft_start.pwr_on_delay = N) (k : Nat) (hk : k ≤ N + 1) :
    (Steps b k s).sepic.soft_start = { s.sepic.soft_start with counter := k } ∧
    (Steps b k s).c2p2z_sepic = s.c2p2z_sepic ∧
    (Steps b k s).OVRENH = s.OVRENH ∧
    (Steps b k s).sepic.data = s.sepic.data := by
  induction k with
  | zero =>
    refine ⟨?_, rfl, rfl, rfl⟩
    show s.sepic.soft_start = _
    rw [← hc]
  | succ j ih =>
    obtain ⟨h1, h2, h3, h4⟩ := ih (by omega)
    have hpj : (Steps b j s).sepic.soft_start.phase = SEPIC_SS_PWR_ON_DELAY := by
      rw [h1]; exact hp
    have hcj : (Steps b j s).sepic.soft_start.counter = j := by rw [h1]
    have hdj : (Steps b j s).sepic.soft_start.pwr_on_delay = N := by rw [h1]; exact hd
    have hw := step_pwr_on_delay_wait b (Steps b j s) hpj (by rw [hcj, hdj]; omega)
    obtain ⟨w1, w2, w3, w4⟩ := hw
    refine ⟨?_, ?_, ?_, ?_⟩
    · show (Step b (Steps b j s)).sepic.soft_start = _
      rw [w1, h1]
      have : (j + 1) % WORD = j + 1 := Nat.mod_eq_of_lt (by unfold WORD; omega)
      simp [this]
    · show (Step b (Steps b j s)).c2p2z_sepic = _
      rw [w2, h2]
    · show (Step b (Steps b j s)).OVRENH = _
      rw [w3, h3]
    · show (Step b (Steps b j s)).sepic.data = _
      rw [w4, h4]

/-- With `pwr_on_delay = 65535` the test `counter++ > pwr_on_delay` is false for
every 16-bit counter value: the delay never expires. -/
theorem steps_pwr_on_delay_max (b : Board) (s : State)
    (hp : s.sepic.soft_start.phase = SEPIC_SS_PWR_ON_DELAY)
    (hd : s.sepic.soft_start.pwr_on_delay = 65535)
    (hc : s.sepic.soft_start.counter < WORD) (n : Nat) :
    (Steps b n s).sepic.soft_start.phase = SEPIC_SS_PWR_ON_DELAY ∧
    (Steps b n s).sepic.soft_start.pwr_on_delay = 65535 ∧
    (Steps b n s).sepic.soft_start.counter < WORD := by
  induction n with
  | zero => exact ⟨hp, hd, hc⟩
  | succ j ih =>
    obtain ⟨h1, h2, h3⟩ := ih
    have hw := (step_pwr_on_delay_wait b (Steps b j s) h1
      (by rw [h2]; unfold WORD at h3; omega)).1
    show (Step b (Steps b j s)).sepic.soft_start.phase = _ ∧
      (Step b (Steps b j s)).sepic.soft_start.pwr_on_delay = _ ∧
      (Step b (Steps b j s)).sepic.soft_start.counter < _
    rw [hw]
    exact ⟨h1, h2, Nat.mod_lt _ (by unfold WORD; omega)⟩

/-- One step of the ramp. -/
theorem step_ramp_up (b : Board) (s : State)
    (hp : s.sepic.soft_start.phase = SEPIC_SS_RAMP_UP) :
    (Step b s).sepic.soft_start =
      (if (s.sepic.soft_start.reference + 4) % WORD ≥ s.sepic.data.v_ref then
        { s.sepic.soft_start with
          reference := (s.sepic.soft_start.reference + 4) % WORD
          counter := 0
          phase := SEPIC_SS_PWR_GOOD_DELAY }
      else
        { s.sepic.soft_start with
          reference := (s.sepic.soft_start.reference + 4) % WORD }) ∧
    (Step b s).c2p2z_sepic = { s.c2p2z_sepic with enable := true } ∧
    (Step b s).OVRENH = false ∧
    (Step b s).sepic.data = s.sepic.data := by
  rw [Step_eq, exec_auto_start_soft_start, exec_auto_start_c2p2z, exec_auto_start_OVRENH,
    exec_auto_start_data, exec_switch_ramp_up b s hp]
  split <;> exact ⟨rfl, rfl, rfl, rfl⟩

/-- While the ramp has not reached the target, the reference is four times the
number of calls. -/
theorem steps_ramp_up_wait (b : Board) (s : State) (T : Nat) (hT : T ≤ 65532)
    (hp : s.sepic.soft_start.phase = SEPIC_SS_RAMP_UP)
    (hr : s.sepic.soft_start.reference = 0)
    (hv : s.sepic.data.v_ref = T) (k : Nat) (hk : 4 * k < T) :
    (Steps b k s).sepic.soft_start = { s.sepic.soft_start with reference := 4 * k } ∧
    (Steps b k s).sepic.data = s.sepic.data := by
  induction k with
  | zero =>
    refine ⟨?_, rfl⟩
    have h0 : 4 * 0 = s.sepic.soft_start.reference := by rw [hr]
    rw [h0]
    rfl
  | succ j ih =>
    obtain ⟨h1, h2⟩ := ih (by omega)
    have hpj : (Steps b j s).sepic.soft_start.phase = SEPIC_SS_RAMP_UP := by
      rw [h1]; exact hp
    obtain ⟨w1, -, -, w4⟩ := step_ramp_up b (Steps b j s) hpj
    have hm : (4 * j + 4) % WORD = 4 * (j + 1) := by
      rw [Nat.mod_eq_of_lt (by unfold WORD; omega)]; ring
    have href : (Steps b j s).sepic.soft_start.reference = 4 * j := by rw [h1]
    have hvj : (Steps b j s).sepic.data.v_ref = T := by rw [h2]; exact hv
    rw [href, hvj, hm, if_neg (by omega)] at w1
    refine ⟨?_, ?_⟩
    · show (Step b (Steps b j s)).sepic.soft_start = _
      rw [w1, h1]
    · show (Step b (Steps b j s)).sepic.data = _
      rw [w4, h2]

/-- With the target at `65535` the ramp never completes: the reference stays a
multiple of four below `65536` and wraps to `0`. -/
theorem steps_ramp_up_wrap (b : Board) (s : State)
    (hp : s.sepic.soft_start.phase = SEPIC_SS_RAMP_UP)
    (hr : s.sepic.soft_start.reference = 0)
    (hv : s.sepic.data.v_ref = 65535) (n : Nat) :
    (Steps b n s).sepic.soft_start.phase = SEPIC_SS_RAMP_UP ∧
    (Steps b n s).sepic.soft_start.reference = (4 * n) % WORD ∧
    (Steps b n s).sepic.data.v_ref = 65535 := by
  induction n with
  | zero => exact ⟨hp, hr, hv⟩
  | succ j ih =>
    obtain ⟨h1, h2, h3⟩ := ih
    obtain ⟨w1, -, -, w4⟩ := step_ramp_up b (Steps b j s) h1
    have hm : ((4 * j) % WORD + 4) % WORD = (4 * (j + 1)) % WORD := by
      unfold WORD; omega
    have hlt : ¬ ((4 * (j + 1)) % WORD ≥ 65535) := by
      unfold WORD; omega
    rw [h2, h3, hm, if_neg hlt] at w1
    show (Step b (Steps b j s)).sepic.soft_start.phase = _ ∧
      (Step b (Steps b j s)).sepic.soft_start.reference = _ ∧
      (Step b (Steps b j s)).sepic.data.v_ref = _
    rw [w1, w4]
    exact ⟨h1, rfl, h3⟩

/-! ## Further steps and runs -/

/-- The copy loop over an array of two words. -/
theorem copy_loop_two (src : List Int) (x y : Int) :
    copy_loop 2 src [x, y] = [src.getD 0 0, src.getD 1 0] := by
  simp [copy_loop, List.range, List.range.loop]

/-- The copy loop over an array of three words. -/
theorem copy_loop_three (src : List Int) (x y z : Int) :
    copy_loop 3 src [x, y, z] = [src.getD 0 0, src.getD 1 0, src.getD 2 0] := by
  simp [copy_loop, List.range, List.range.loop]

/-- A list of length two has two entries. -/
theorem list_length_two (l : List Int) (h : l.length = 2) : ∃ x y, l = [x, y] := by
  match l, h with
  | [x, y], _ => exact ⟨x, y, rfl⟩

/-- A list of length three has three entries. -/
theorem list_length_three (l : List Int) (h : l.length = 3) : ∃ x y z, l = [x, y, z] := by
  match l, h with
  | [x, y, z], _ => exact ⟨x, y, z, rfl⟩

/-- The INIT step: everything `init_sepic_pwr_control` leaves behind that the
supervisor looks at. -/
theorem step_init (b : Board) (s : State)
    (hp : s.sepic.soft_start.phase = SEPIC_SS_INIT) :
    (Step b s).sepic.soft_start.phase = SEPIC_SS_LAUNCH_PER ∧
    (Step b s).sepic.status.op_status = SEPIC_STAT_OFF ∧
    (Step b s).c2p2z_sepic.enable = false ∧
    (Step b s).sepic.soft_start.counter = 0 ∧
    (Step b s).c2p2z_sepic.ptrControlReference = Loc.data_v_ref ∧
    (Step b s).sepic.data.v_ref = 0 := by
  rw [Step_eq, exec_auto_start_soft_start, exec_auto_start_op_status, exec_auto_start_c2p2z,
    exec_auto_start_data, exec_switch_init b s hp]
  exact ⟨rfl, rfl, rfl, rfl, rfl, rfl⟩

/-- The LAUNCH_PER step. -/
theorem step_launch_per (b : Board) (s : State)
    (hp : s.sepic.soft_start.phase = SEPIC_SS_LAUNCH_PER) :
    (Step b s).sepic.soft_start.phase = SEPIC_SS_STANDBY ∧
    (Step b s).sepic.status.op_status = SEPIC_STAT_OFF ∧
    (Step b s).c2p2z_sepic = s.c2p2z_sepic := by
  rw [Step_eq, exec_auto_start_soft_start, exec_auto_start_op_status, exec_auto_start_c2p2z,
    exec_switch_launch_per b s hp]
  exact ⟨rfl, rfl, rfl⟩

/-- The step of the `default` arm. -/
theorem step_default (b : Board) (s : State) (raw : Nat)
    (hp : s.sepic.soft_start.phase = undefined_phase raw) :
    (Step b s).sepic.soft_start.phase = SEPIC_SS_STANDBY ∧
    (Step b s).sepic.status.fault_active = true ∧
    (Step b s).c2p2z_sepic = s.c2p2z_sepic ∧
    (Step b s).OVRENH = s.OVRENH := by
  rw [Step_eq, exec_auto_start_soft_start, exec_auto_start_fault_active, exec_auto_start_c2p2z,
    exec_auto_start_OVRENH, exec_switch_default b s raw hp]
  exact ⟨rfl, rfl, rfl, rfl⟩

/-- The STANDBY step while a fault is flagged. -/
theorem step_standby_fault (b : Board) (s : State)
    (hp : s.sepic.soft_start.phase = SEPIC_SS_STANDBY)
    (hf : s.sepic.status.fault_active = true) :
    (Step b s).sepic.soft_start.phase = SEPIC_SS_STANDBY ∧
    (Step b s).sepic.status.fault_active = true ∧
    (Step b s).c2p2z_sepic.enable = false ∧
    (Step b s).OVRENH = true ∧
    (Step b s).sepic.status.pwm_active = false := by
  have hc : ¬ (s.sepic.status.enabled = true ∧ s.sepic.status.adc_active = true ∧
      s.sepic.status.fault_active = false ∧ s.sepic.status.GO = true) := by
    rw [hf]; simp
  rw [Step_eq, exec_auto_start_soft_start, exec_auto_start_fault_active, exec_auto_start_c2p2z,
    exec_auto_start_OVRENH, exec_auto_start_pwm_active, exec_switch_standby b s hp, if_neg hc]
  exact ⟨hp, hf, rfl, rfl, rfl⟩

/-- No arm of the `switch` lowers a raised fault flag. -/
theorem exec_switch_fault_active (b : Board) (s : State)
    (hf : s.sepic.status.fault_active = true) :
    (exec_switch b s).sepic.status.fault_active = true := by
  cases hp : s.sepic.soft_start.phase with
  | SEPIC_SS_INIT => rw [exec_switch_init b s hp]; exact hf
  | SEPIC_SS_LAUNCH_PER => rw [exec_switch_launch_per b s hp]; exact hf
  | SEPIC_SS_STANDBY => rw [exec_switch_standby b s hp]; split <;> exact hf
  | SEPIC_SS_PWR_ON_DELAY => rw [exec_switch_pwr_on_delay b s hp]; split <;> exact hf
  | SEPIC_SS_RAMP_UP => rw [exec_switch_ramp_up b s hp]; split <;> exact hf
  | SEPIC_SS_PWR_GOOD_DELAY => rw [exec_switch_pwr_good_delay b s hp]; split <;> exact hf
  | SEPIC_SS_COMPLETE => rw [exec_switch_complete b s hp]; exact hf
  | undefined_phase raw => rw [exec_switch_default b s raw hp]

/-- The sampling interrupt sets `adc_active` and leaves the soft-start data, the
other flags, the compensator object and the reference alone. -/
theorem interrupt_frame (m : UpdateModel) (adcbuf : Nat) (s : State) :
    (_SEPIC_VOUT_ADCInterrupt m adcbuf s).1.sepic.soft_start = s.sepic.soft_start ∧
    (_SEPIC_VOUT_ADCInterrupt m adcbuf s).1.c2p2z_sepic = s.c2p2z_sepic ∧
    (_SEPIC_VOUT_ADCInterrupt m adcbuf s).1.OVRENH = s.OVRENH ∧
    (_SEPIC_VOUT_ADCInterrupt m adcbuf s).1.sepic.status =
      { s.sepic.status with adc_active := true } ∧
    (_SEPIC_VOUT_ADCInterrupt m adcbuf s).1.sepic.data.v_ref = s.sepic.data.v_ref := by
  unfold _SEPIC_VOUT_ADCInterrupt c2p2z_sepic_Update
  simp only []
  split <;> exact ⟨rfl, rfl, rfl, rfl, rfl⟩

/-- An event that does not clear the fault flag keeps a faulted STANDBY as it is. -/
theorem apply_event_standby_fault (b : Board) (m : UpdateModel) (e : Event) (s : State)
    (hp : s.sepic.soft_start.phase = SEPIC_SS_STANDBY)
    (hf : s.sepic.status.fault_active = true)
    (he : e.keeps_fault = true) :
    (apply_event b m e s).sepic.soft_start.phase = SEPIC_SS_STANDBY ∧
    (apply_event b m e s).sepic.status.fault_active = true ∧
    (s.c2p2z_sepic.enable = false ∨ e = Event.tick →
      (apply_event b m e s).c2p2z_sepic.enable = false) := by
  cases e with
  | tick =>
    obtain ⟨f1, f2, f3, -, -⟩ := step_standby_fault b s hp hf
    exact ⟨f1, f2, fun _ => f3⟩
  | sample adcbuf =>
    obtain ⟨i1, i2, -, i4, -⟩ := interrupt_frame m adcbuf s
    refine ⟨?_, ?_, ?_⟩
    · show (_SEPIC_VOUT_ADCInterrupt m adcbuf s).1.sepic.soft_start.phase = _
      rw [i1]; exact hp
    · show (_SEPIC_VOUT_ADCInterrupt m adcbuf s).1.sepic.status.fault_active = _
      rw [i4]; exact hf
    · intro h
      show (_SEPIC_VOUT_ADCInterrupt m adcbuf s).1.c2p2z_sepic.enable = _
      rw [i2]
      rcases h with h | h
      · exact h
      · cases h
  | write flags v_ref =>
    refine ⟨hp, he, ?_⟩
    intro h
    rcases h with h | h
    · exact h
    · cases h

/-- A faulted STANDBY survives every sequence of events that do not clear the
fault flag, and the loop is disabled from the first call on. -/
theorem run_events_standby_fault (b : Board) (m : UpdateModel) (es : List Event) :
    ∀ s : State, s.sepic.soft_start.phase = SEPIC_SS_STANDBY →
      s.sepic.status.fault_active = true →
      (∀ e ∈ es, e.keeps_fault = true) →
      (run_events b m es s).sepic.soft_start.phase = SEPIC_SS_STANDBY ∧
      (run_events b m es s).sepic.status.fault_active = true ∧
      (s.c2p2z_sepic.enable = false ∨ Event.tick ∈ es →
        (run_events b m es s).c2p2z_sepic.enable = false) := by
  induction es with
  | nil =>
    intro s hp hf _
    refine ⟨hp, hf, ?_⟩
    intro h
    rcases h with h | h
    · exact h
    · simp at h
  | cons e es ih =>
    intro s hp hf hes
    have he : e.keeps_fault = true := hes e (List.mem_cons_self _ _)
    obtain ⟨a1, a2, a3⟩ := apply_event_standby_fault b m e s hp hf he
    obtain ⟨r1, r2, r3⟩ := ih (apply_event b m e s) a1 a2
      (fun x hx => hes x (List.mem_cons_of_mem _ hx))
    refine ⟨r1, r2, ?_⟩
    intro h
    apply r3
    rcases h with h | h
    · exact Or.inl (a3 (Or.inl h))
    · rcases List.mem_cons.mp h with h | h
      · exact Or.inl (a3 (Or.inr h.symm))
      · exact Or.inr h

/-- Every call preserves `enable_only_when_running`. -/
theorem step_enable_only_when_running (b : Board) (s : State)
    (h : enable_only_when_running s) : enable_only_when_running (Step b s) := by
  unfold enable_only_when_running at h ⊢
  rw [Step_eq, exec_auto_start_soft_start, exec_auto_start_c2p2z]
  cases hp : s.sepic.soft_start.phase with
  | SEPIC_SS_INIT => rw [exec_switch_init b s hp]; exact Or.inl rfl
  | SEPIC_SS_LAUNCH_PER =>
    rw [exec_switch_launch_per b s hp]
    rw [hp] at h
    simp at h
    exact Or.inl h
  | SEPIC_SS_STANDBY => rw [exec_switch_standby b s hp]; split <;> exact Or.inl rfl
  | SEPIC_SS_PWR_ON_DELAY =>
    rw [exec_switch_pwr_on_delay b s hp]
    rw [hp] at h
    simp at h
    split <;> exact Or.inl h
  | SEPIC_SS_RAMP_UP =>
    rw [exec_switch_ramp_up b s hp]
    split
    · exact Or.inr (Or.inr (Or.inl rfl))
    · exact Or.inr (Or.inl hp)
  | SEPIC_SS_PWR_GOOD_DELAY =>
    rw [exec_switch_pwr_good_delay b s hp]
    split
    · exact Or.inr (Or.inr (Or.inr rfl))
    · exact Or.inr (Or.inr (Or.inl hp))
  | SEPIC_SS_COMPLETE =>
    rw [exec_switch_complete b s hp]
    exact Or.inr (Or.inr (Or.inr hp))
  | undefined_phase raw =>
    rw [exec_switch_default b s raw hp]
    rw [hp] at h
    simp at h
    exact Or.inl h

/-- Every event preserves `enable_only_when_running`. -/
theorem apply_event_enable_only_when_running (b : Board) (m : UpdateModel) (e : Event)
    (s : State) (h : enable_only_when_running s) :
    enable_only_when_running (apply_event b m e s) := by
  cases e with
  | tick => exact step_enable_only_when_running b s h
  | sample adcbuf =>
    obtain ⟨i1, i2, -, -, -⟩ := interrupt_frame m adcbuf s
    unfold enable_only_when_running at h ⊢
    show (_SEPIC_VOUT_ADCInterrupt m adcbuf s).1.c2p2z_sepic.enable = false ∨
      (_SEPIC_VOUT_ADCInterrupt m adcbuf s).1.sepic.soft_start.phase = _ ∨
      (_SEPIC_VOUT_ADCInterrupt m adcbuf s).1.sepic.soft_start.phase = _ ∨
      (_SEPIC_VOUT_ADCInterrupt m adcbuf s).1.sepic.soft_start.phase = _
    rw [i1, i2]
    exact h
  | write flags v_ref => exact h

/-- Every sequence of events preserves `enable_only_when_running`. -/
theorem run_events_enable_only_when_running (b : Board) (m : UpdateModel) (es : List Event) :
    ∀ s : State, enable_only_when_running s →
      enable_only_when_running (run_events b m es s) := by
  induction es with
  | nil => intro s h; exact h
  | cons e es ih =>
    intro s h
    exact ih _ (apply_event_enable_only_when_running b m e s h)

/-- A step of the power-good delay that does not expire: the counter advances. -/
theorem step_pwr_good_delay_wait (b : Board) (s : State)
    (hp : s.sepic.soft_start.phase = SEPIC_SS_PWR_GOOD_DELAY)
    (hc : s.sepic.soft_start.counter ≤ s.sepic.soft_start.pwr_good_delay) :
    (Step b s).sepic.soft_start =
      { s.sepic.soft_start with counter := (s.sepic.soft_start.counter + 1) % WORD } ∧
    (Step b s).c2p2z_sepic = s.c2p2z_sepic ∧
    (Step b s).OVRENH = s.OVRENH ∧
    (Step b s).sepic.data = s.sepic.data := by
  rw [Step_eq, exec_auto_start_soft_start, exec_auto_start_c2p2z, exec_auto_start_OVRENH,
    exec_auto_start_data, exec_switch_pwr_good_delay b s hp, if_neg (Nat.not_lt.mpr hc)]
  exact ⟨rfl, rfl, rfl, rfl⟩

/-- The step of the power-good delay that expires. -/
theorem step_pwr_good_delay_expire (b : Board) (s : State)
    (hp : s.sepic.soft_start.phase = SEPIC_SS_PWR_GOOD_DELAY)
    (hc : s.sepic.soft_start.counter > s.sepic.soft_start.pwr_good_delay) :
    (Step b s).sepic.soft_start =
      { s.sepic.soft_start with counter := 0, phase := SEPIC_SS_COMPLETE } ∧
    (Step b s).c2p2z_sepic = s.c2p2z_sepic ∧
    (Step b s).OVRENH = s.OVRENH ∧
    (Step b s).sepic.data = s.sepic.data := by
  rw [Step_eq, exec_auto_start_soft_start, exec_auto_start_c2p2z, exec_auto_start_OVRENH,
    exec_auto_start_data, exec_switch_pwr_good_delay b s hp, if_pos hc]
  exact ⟨rfl, rfl, rfl, rfl⟩

/-- While the power-good delay runs, the counter equals the number of calls. -/
theorem steps_pwr_good_delay_wait (b : Board) (s : State) (M : Nat) (hM : M ≤ 65534)
    (hp : s.sepic.soft_start.phase = SEPIC_SS_PWR_GOOD_DELAY)
    (hc : s.sepic.soft_start.counter = 0)
    (hd : s.sepic.soft_start.pwr_good_delay = M) (k : Nat) (hk : k ≤ M + 1) :
    (Steps b k s).sepic.soft_start = { s.sepic.soft_start with counter := k } ∧
    (Steps b k s).c2p2z_sepic = s.c2p2z_sepic ∧
    (Steps b k s).OVRENH = s.OVRENH ∧
    (Steps b k s).sepic.data = s.sepic.data := by
  induction k with
  | zero =>
    refine ⟨?_, rfl, rfl, rfl⟩
    show s.sepic.soft_start = _
    rw [← hc]
  | succ j ih =>
    obtain ⟨h1, h2, h3, h4⟩ := ih (by omega)
    have hpj : (Steps b j s).sepic.soft_start.phase = SEPIC_SS_PWR_GOOD_DELAY := by
      rw [h1]; exact hp
    have hcj : (Steps b j s).sepic.soft_start.counter = j := by rw [h1]
    have hdj : (Steps b j s).sepic.soft_start.pwr_good_delay = M := by rw [h1]; exact hd
    obtain ⟨w1, w2, w3, w4⟩ :=
      step_pwr_good_delay_wait b (Steps b j s) hpj (by rw [hcj, hdj]; omega)
    refine ⟨?_, ?_, ?_, ?_⟩
    · show (Step b (Steps b j s)).sepic.soft_start = _
      rw [w1, h1]
      have : (j + 1) % WORD = j + 1 := Nat.mod_eq_of_lt (by unfold WORD; omega)
      simp [this]
    · show (Step b (Steps b j s)).c2p2z_sepic = _
      rw [w2, h2]
    · show (Step b (Steps b j s)).OVRENH = _
      rw [w3, h3]
    · show (Step b (Steps b j s)).sepic.data = _
      rw [w4, h4]

/-- The call that ends the power-good delay. -/
theorem steps_pwr_good_delay_done (b : Board) (s : State) (M : Nat) (hM : M ≤ 65534)
    (hp : s.sepic.soft_start.phase = SEPIC_SS_PWR_GOOD_DELAY)
    (hc : s.sepic.soft_start.counter = 0)
    (hd : s.sepic.soft_start.pwr_good_delay = M) :
    (Steps b (M + 2) s).sepic.soft_start =
      { s.sepic.soft_start with counter := 0, phase := SEPIC_SS_COMPLETE } ∧
    (Steps b (M + 2) s).c2p2z_sepic = s.c2p2z_sepic ∧
    (Steps b (M + 2) s).OVRENH = s.OVRENH ∧
    (Steps b (M + 2) s).sepic.data = s.sepic.data := by
  obtain ⟨h1, h2, h3, h4⟩ := steps_pwr_good_delay_wait b s M hM hp hc hd (M + 1) (le_refl _)
  have hpj : (Steps b (M + 1) s).sepic.soft_start.phase = SEPIC_SS_PWR_GOOD_DELAY := by
    rw [h1]; exact hp
  obtain ⟨x1, x2, x3, x4⟩ :=
    step_pwr_good_delay_expire b (Steps b (M + 1) s) hpj (by rw [h1]; simp [hd])
  have e : Steps b (M + 2) s = Step b (Steps b (M + 1) s) := rfl
  rw [e, x1, x2, x3, x4, h1, h2, h3, h4]
  exact ⟨rfl, rfl, rfl, rfl⟩

/-- With `pwr_good_delay = 65535` the delay never expires. -/
theorem steps_pwr_good_delay_max (b : Board) (s : State)
    (hp : s.sepic.soft_start.phase = SEPIC_SS_PWR_GOOD_DELAY)
    (hd : s.sepic.soft_start.pwr_good_delay = 65535)
    (hc : s.sepic.soft_start.counter < WORD) (n : Nat) :
    (Steps b n s).sepic.soft_start.phase = SEPIC_SS_PWR_GOOD_DELAY ∧
    (Steps b n s).sepic.soft_start.pwr_good_delay = 65535 ∧
    (Steps b n s).sepic.soft_start.counter < WORD := by
  induction n with
  | zero => exact ⟨hp, hd, hc⟩
  | succ j ih =>
    obtain ⟨h1, h2, h3⟩ := ih
    have hw := (step_pwr_good_delay_wait b (Steps b j s) h1
      (by rw [h2]; unfold WORD at h3; omega)).1
    show (Step b (Steps b j s)).sepic.soft_start.phase = _ ∧
      (Step b (Steps b j s)).sepic.soft_start.pwr_good_delay = _ ∧
      (Step b (Steps b j s)).sepic.soft_start.counter < _
    rw [hw]
    exact ⟨h1, h2, Nat.mod_lt _ (by unfold WORD; omega)⟩

/-- The STANDBY step that starts the soft-start. -/
theorem step_standby_start (b : Board) (s : State)
    (hp : s.sepic.soft_start.phase = SEPIC_SS_STANDBY)
    (hc : s.sepic.status.enabled = true ∧ s.sepic.status.adc_active = true ∧
      s.sepic.status.fault_active = false ∧ s.sepic.status.GO = true) :
    (Step b s).sepic.soft_start =
      { s.sepic.soft_start with counter := 0, phase := SEPIC_SS_PWR_ON_DELAY } ∧
    (Step b s).c2p2z_sepic = { s.c2p2z_sepic with enable := false } ∧
    (Step b s).OVRENH = true ∧
    (Step b s).sepic.data = s.sepic.data := by
  rw [Step_eq, exec_auto_start_soft_start, exec_auto_start_c2p2z, exec_auto_start_OVRENH,
    exec_auto_start_data, exec_switch_standby b s hp, if_pos hc]
  exact ⟨rfl, rfl, rfl, rfl⟩

/-- The call that ends the power-on delay. -/
theorem steps_pwr_on_delay_done (b : Board) (s : State) (N : Nat) (hN : N ≤ 65534)
    (hp : s.sepic.soft_start.phase = SEPIC_SS_PWR_ON_DELAY)
    (hc : s.sepic.soft_start.counter = 0)
    (hd : s.sepic.soft_start.pwr_on_delay = N) :
    (Steps b (N + 2) s).sepic.soft_start =
      { s.sepic.soft_start with reference := 0, counter := 0, phase := SEPIC_SS_RAMP_UP } ∧
    (Steps b (N + 2) s).c2p2z_sepic =
      { s.c2p2z_sepic with ptrControlReference := Loc.soft_start_reference } ∧
    (Steps b (N + 2) s).OVRENH = s.OVRENH ∧
    (Steps b (N + 2) s).sepic.data = s.sepic.data := by
  obtain ⟨h1, h2, h3, h4⟩ := steps_pwr_on_delay_wait b s N hN hp hc hd (N + 1) (le_refl _)
  have hpj : (Steps b (N + 1) s).sepic.soft_start.phase = SEPIC_SS_PWR_ON_DELAY := by
    rw [h1]; exact hp
  obtain ⟨x1, x2, x3, x4⟩ :=
    step_pwr_on_delay_expire b (Steps b (N + 1) s) hpj (by rw [h1]; simp [hd])
  have e : Steps b (N + 2) s = Step b (Steps b (N + 1) s) := rfl
  rw [e, x1, x2, x3, x4, h1, h2, h3, h4]
  exact ⟨rfl, rfl, rfl, rfl⟩

/-- The call that ends the ramp. -/
theorem steps_ramp_up_done (b : Board) (s : State) (T : Nat) (hT1 : 1 ≤ T) (hT2 : T ≤ 65532)
    (hp : s.sepic.soft_start.phase = SEPIC_SS_RAMP_UP)
    (hr : s.sepic.soft_start.reference = 0)
    (hv : s.sepic.data.v_ref = T) :
    (Steps b ((T + 3) / 4) s).sepic.soft_start =
      { s.sepic.soft_start with
        reference := 4 * ((T + 3) / 4), counter := 0, phase := SEPIC_SS_PWR_GOOD_DELAY } ∧
    (Steps b ((T + 3) / 4) s).c2p2z_sepic.enable = true ∧
    (Steps b ((T + 3) / 4) s).sepic.data = s.sepic.data := by
  obtain ⟨K, hK⟩ : ∃ K, (T + 3) / 4 = K + 1 := ⟨(T + 3) / 4 - 1, by omega⟩
  rw [hK]
  obtain ⟨h1, h2⟩ := steps_ramp_up_wait b s T hT2 hp hr hv K (by omega)
  have hpj : (Steps b K s).sepic.soft_start.phase = SEPIC_SS_RAMP_UP := by
    rw [h1]; exact hp
  obtain ⟨w1, w2, -, w4⟩ := step_ramp_up b (Steps b K s) hpj
  have hm : (4 * K + 4) % WORD = 4 * (K + 1) := by
    rw [Nat.mod_eq_of_lt (by unfold WORD; omega)]; ring
  have href : (Steps b K s).sepic.soft_start.reference = 4 * K := by rw [h1]
  have hvj : (Steps b K s).sepic.data.v_ref = T := by rw [h2]; exact hv
  rw [href, hvj, hm, if_pos (by omega)] at w1
  have e : Steps b (K + 1) s = Step b (Steps b K s) := rfl
  rw [e, w1, w2, w4, h1, h2]
  exact ⟨rfl, rfl, rfl⟩

/-! ## The claims -/

/-- C1 (fault self-healing): from every state whose phase is none of the seven
handled phases, one call of `exec_sepic_pwr_control` yields phase STANDBY,
`fault_active = true`, `adc_active = false`, `op_status = FAULT`, and the call
returns `1`. -/
theorem fault_self_healing (b : Board) (s : State)
    (h : s.sepic.soft_start.phase.handled = false) :
    (exec_sepic_pwr_control b s).1.sepic.soft_start.phase = SEPIC_SS_STANDBY ∧
    (exec_sepic_pwr_control b s).1.sepic.status.fault_active = true ∧
    (exec_sepic_pwr_control b s).1.sepic.status.adc_active = false ∧
    (exec_sepic_pwr_control b s).1.sepic.status.op_status = SEPIC_STAT_FAULT ∧
    (exec_sepic_pwr_control b s).2 = 1 := by
  cases hp : s.sepic.soft_start.phase <;> simp [hp, SEPIC_SS_PHASE.handled] at h
  simp only [exec_sepic_pwr_control, exec_auto_start_soft_start, exec_auto_start_fault_active,
    exec_auto_start_adc_active, exec_auto_start_op_status]
  simp [exec_switch, hp]

/-- Instance of C1 at a running converter whose phase word holds `7`. -/
theorem fault_self_healing_witness :
    state_corrupt.sepic.soft_start.phase.handled = false ∧
    (exec_sepic_pwr_control board0 state_corrupt).1.sepic.soft_start.phase = SEPIC_SS_STANDBY ∧
    (exec_sepic_pwr_control board0 state_corrupt).1.sepic.status.fault_active = true ∧
    (exec_sepic_pwr_control board0 state_corrupt).1.sepic.status.adc_active = false ∧
    (exec_sepic_pwr_control board0 state_corrupt).1.sepic.status.op_status = SEPIC_STAT_FAULT ∧
    (exec_sepic_pwr_control board0 state_corrupt).2 = 1 :=
  ⟨rfl, fault_self_healing board0 state_corrupt rfl⟩

/-- C2, amended (delay-phase timing): for every configured `pwr_on_delay = N` with
`N ≤ 65534`, starting in PWR_ON_DELAY with `counter = 0`, the phase is still
PWR_ON_DELAY after each of the first `N + 1` calls of `exec_sepic_pwr_control`
and is RAMP_UP after the `(N + 2)`-th call; that call leaves
`soft_start.reference = 0`, the compensator reference bound to
`soft_start.reference`, and `counter = 0`. -/
theorem delay_phase_timing (b : Board) (s : State) (N : Nat) (hN : N ≤ 65534)
    (hp : s.sepic.soft_start.phase = SEPIC_SS_PWR_ON_DELAY)
    (hc : s.sepic.soft_start.counter = 0)
    (hd : s.sepic.soft_start.pwr_on_delay = N) :
    (∀ k : Nat, k ≤ N + 1 →
      (Steps b k s).sepic.soft_start.phase = SEPIC_SS_PWR_ON_DELAY) ∧
    (Steps b (N + 2) s).sepic.soft_start.phase = SEPIC_SS_RAMP_UP ∧
    (Steps b (N + 2) s).sepic.soft_start.reference = 0 ∧
    (Steps b (N + 2) s).c2p2z_sepic.ptrControlReference = Loc.soft_start_reference ∧
    (Steps b (N + 2) s).sepic.soft_start.counter = 0 := by
  constructor
  · intro k hk
    rw [(steps_pwr_on_delay_wait b s N hN hp hc hd k hk).1]
    exact hp
  · obtain ⟨h1, -, -, -⟩ := steps_pwr_on_delay_wait b s N hN hp hc hd (N + 1) (le_refl _)
    have hpj : (Steps b (N + 1) s).sepic.soft_start.phase = SEPIC_SS_PWR_ON_DELAY := by
      rw [h1]; exact hp
    have hx := step_pwr_on_delay_expire b (Steps b (N + 1) s) hpj (by rw [h1]; simp [hd])
    obtain ⟨x1, x2, -, -⟩ := hx
    have e : Steps b (N + 2) s = Step b (Steps b (N + 1) s) := rfl
    rw [e, x1, x2]
    exact ⟨rfl, rfl, rfl, rfl⟩

/-- Instance of C2 at `pwr_on_delay = 3`: four calls wait, the fifth enters
RAMP_UP. -/
theorem delay_phase_timing_witness :
    (3 : Nat) ≤ 65534 ∧
    state_delay.sepic.soft_start.phase = SEPIC_SS_PWR_ON_DELAY ∧
    state_delay.sepic.soft_start.counter = 0 ∧
    state_delay.sepic.soft_start.pwr_on_delay = 3 ∧
    ((∀ k : Nat, k ≤ 3 + 1 →
      (Steps board0 k state_delay).sepic.soft_start.phase = SEPIC_SS_PWR_ON_DELAY) ∧
    (Steps board0 (3 + 2) state_delay).sepic.soft_start.phase = SEPIC_SS_RAMP_UP ∧
    (Steps board0 (3 + 2) state_delay).sepic.soft_start.reference = 0 ∧
    (Steps board0 (3 + 2) state_delay).c2p2z_sepic.ptrControlReference =
      Loc.soft_start_reference ∧
    (Steps board0 (3 + 2) state_delay).sepic.soft_start.counter = 0) :=
  ⟨by decide, rfl, rfl, rfl, delay_phase_timing board0 state_delay 3 (by decide) rfl rfl rfl⟩

/-- C2 as stated fails at `N = 65535`: the 16-bit counter can never exceed the
delay, so after `N + 2` calls the phase is not RAMP_UP. -/
theorem delay_phase_timing_counterexample :
    state_delay_max.sepic.soft_start.phase = SEPIC_SS_PWR_ON_DELAY ∧
    state_delay_max.sepic.soft_start.counter = 0 ∧
    state_delay_max.sepic.soft_start.pwr_on_delay = 65535 ∧
    (Steps board0 (65535 + 2) state_delay_max).sepic.soft_start.phase ≠ SEPIC_SS_RAMP_UP := by
  refine ⟨rfl, rfl, rfl, ?_⟩
  rw [(steps_pwr_on_delay_max board0 state_delay_max rfl rfl (by decide) (65535 + 2)).1]
  decide

/-- C3, amended (ramp completion): for every constant external target `T` with
`1 ≤ T ≤ 65532`, from the start of RAMP_UP (`reference = 0`), the phase is
RAMP_UP after each of the first `ceil(T/4) - 1` calls and after exactly
`ceil(T/4) = (T + 3) / 4` calls the phase is PWR_GOOD_DELAY with
`reference = 4 * ceil(T/4) ≥ T` and `counter = 0`. -/
theorem ramp_completion (b : Board) (s : State) (T : Nat) (hT1 : 1 ≤ T) (hT2 : T ≤ 65532)
    (hp : s.sepic.soft_start.phase = SEPIC_SS_RAMP_UP)
    (hr : s.sepic.soft_start.reference = 0)
    (hv : s.sepic.data.v_ref = T) :
    (∀ k : Nat, k < (T + 3) / 4 →
      (Steps b k s).sepic.soft_start.phase = SEPIC_SS_RAMP_UP) ∧
    (Steps b ((T + 3) / 4) s).sepic.soft_start.phase = SEPIC_SS_PWR_GOOD_DELAY ∧
    T ≤ (Steps b ((T + 3) / 4) s).sepic.soft_start.reference ∧
    (Steps b ((T + 3) / 4) s).sepic.soft_start.reference = 4 * ((T + 3) / 4) ∧
    (Steps b ((T + 3) / 4) s).sepic.soft_start.counter = 0 := by
  constructor
  · intro k hk
    rw [(steps_ramp_up_wait b s T hT2 hp hr hv k (by omega)).1]
    exact hp
  · obtain ⟨K, hK⟩ : ∃ K, (T + 3) / 4 = K + 1 := ⟨(T + 3) / 4 - 1, by omega⟩
    rw [hK]
    obtain ⟨h1, h2⟩ := steps_ramp_up_wait b s T hT2 hp hr hv K (by omega)
    have hpj : (Steps b K s).sepic.soft_start.phase = SEPIC_SS_RAMP_UP := by
      rw [h1]; exact hp
    obtain ⟨w1, -, -, -⟩ := step_ramp_up b (Steps b K s) hpj
    have hm : (4 * K + 4) % WORD = 4 * (K + 1) := by
      rw [Nat.mod_eq_of_lt (by unfold WORD; omega)]; ring
    have href : (Steps b K s).sepic.soft_start.reference = 4 * K := by rw [h1]
    have hvj : (Steps b K s).sepic.data.v_ref = T := by rw [h2]; exact hv
    rw [href, hvj, hm, if_pos (by omega)] at w1
    have e : Steps b (K + 1) s = Step b (Steps b K s) := rfl
    rw [e, w1]
    refine ⟨rfl, ?_, rfl, rfl⟩
    show T ≤ 4 * (K + 1)
    omega

/-- Instance of C3 in the start-up out of STANDBY with `enabled`, `adc_active`,
`GO` set, no fault and the target `1000`: once RAMP_UP is entered,
`(1000 + 3) / 4 = 250` calls complete the ramp. -/
theorem ramp_completion_witness :
    state_standby_go.sepic.soft_start.phase = SEPIC_SS_STANDBY ∧
    (1 : Nat) ≤ 1000 ∧ (1000 : Nat) ≤ 65532 ∧
    state_ramp_entry.sepic.soft_start.phase = SEPIC_SS_RAMP_UP ∧
    state_ramp_entry.sepic.soft_start.reference = 0 ∧
    state_ramp_entry.sepic.data.v_ref = 1000 ∧
    (1000 + 3) / 4 = 250 ∧
    ((∀ k : Nat, k < (1000 + 3) / 4 →
      (Steps board0 k state_ramp_entry).sepic.soft_start.phase = SEPIC_SS_RAMP_UP) ∧
    (Steps board0 ((1000 + 3) / 4) state_ramp_entry).sepic.soft_start.phase =
      SEPIC_SS_PWR_GOOD_DELAY ∧
    1000 ≤ (Steps board0 ((1000 + 3) / 4) state_ramp_entry).sepic.soft_start.reference ∧
    (Steps board0 ((1000 + 3) / 4) state_ramp_entry).sepic.soft_start.reference =
      4 * ((1000 + 3) / 4) ∧
    (Steps board0 ((1000 + 3) / 4) state_ramp_entry).sepic.soft_start.counter = 0) :=
  ⟨rfl, by decide, by decide, by decide, by decide, by decide, by decide,
    ramp_completion board0 state_ramp_entry 1000 (by decide) (by decide)
      (by decide) (by decide) (by decide)⟩

/-- C3 as stated fails at `T = 65535`: after `ceil(T/4) = 16384` calls the
reference has wrapped to `0` and the phase is still RAMP_UP. -/
theorem ramp_completion_counterexample :
    (state_ramp 65535).sepic.soft_start.phase = SEPIC_SS_RAMP_UP ∧
    (state_ramp 65535).sepic.soft_start.reference = 0 ∧
    (state_ramp 65535).sepic.data.v_ref = 65535 ∧
    (65535 + 3) / 4 = 16384 ∧
    (Steps board0 16384 (state_ramp 65535)).sepic.soft_start.phase ≠ SEPIC_SS_PWR_GOOD_DELAY ∧
    (Steps board0 16384 (state_ramp 65535)).sepic.soft_start.reference = 0 := by
  obtain ⟨h1, h2, -⟩ := steps_ramp_up_wrap board0 (state_ramp 65535) rfl rfl rfl 16384
  refine ⟨rfl, rfl, rfl, by decide, ?_, ?_⟩
  · rw [h1]; decide
  · rw [h2]; decide

/-- C4 (auto-start forcing, one-shot GO): for every state, whatever its phase and
flags, one call of `exec_sepic_pwr_control` leaves `auto_start` as it was; if
`auto_start` is set the call leaves `enabled = true` and `GO = true`; if it is
clear the call leaves `GO = false` and `enabled` unchanged. -/
theorem auto_start_forcing (b : Board) (s : State) :
    (exec_sepic_pwr_control b s).1.sepic.status.auto_start = s.sepic.status.auto_start ∧
    (s.sepic.status.auto_start = true →
      (exec_sepic_pwr_control b s).1.sepic.status.enabled = true ∧
      (exec_sepic_pwr_control b s).1.sepic.status.GO = true) ∧
    (s.sepic.status.auto_start = false →
      (exec_sepic_pwr_control b s).1.sepic.status.GO = false ∧
      (exec_sepic_pwr_control b s).1.sepic.status.enabled = s.sepic.status.enabled) := by
  have h := exec_switch_auto_start_enabled b s
  simp only [exec_sepic_pwr_control, exec_auto_start_auto_start, exec_auto_start_GO,
    exec_auto_start_enabled, h.1, h.2]
  refine ⟨trivial, ?_, ?_⟩ <;> intro ha <;> simp [ha]

/-- C5 (STANDBY step): from every state with phase STANDBY, one call of
`exec_sepic_pwr_control` asserts the PWM override, clears the compensator enable
flag and `pwm_active`, sets `op_status = STANDBY`; the resulting phase is
PWR_ON_DELAY with `counter = 0` exactly when `enabled`, `adc_active`,
`¬ fault_active` and `GO` held before the call; otherwise the phase stays STANDBY
and the counter keeps its value. -/
theorem standby_step (b : Board) (s : State)
    (hp : s.sepic.soft_start.phase = SEPIC_SS_STANDBY) :
    (Step b s).OVRENH = true ∧
    (Step b s).c2p2z_sepic.enable = false ∧
    (Step b s).sepic.status.pwm_active = false ∧
    (Step b s).sepic.status.op_status = SEPIC_STAT_STANDBY ∧
    (((Step b s).sepic.soft_start.phase = SEPIC_SS_PWR_ON_DELAY ∧
        (Step b s).sepic.soft_start.counter = 0) ↔
      (s.sepic.status.enabled = true ∧ s.sepic.status.adc_active = true ∧
        s.sepic.status.fault_active = false ∧ s.sepic.status.GO = true)) ∧
    (¬ (s.sepic.status.enabled = true ∧ s.sepic.status.adc_active = true ∧
        s.sepic.status.fault_active = false ∧ s.sepic.status.GO = true) →
      (Step b s).sepic.soft_start.phase = SEPIC_SS_STANDBY ∧
      (Step b s).sepic.soft_start.counter = s.sepic.soft_start.counter) := by
  simp only [Step_eq, exec_auto_start_OVRENH, exec_auto_start_c2p2z, exec_auto_start_pwm_active,
    exec_auto_start_op_status, exec_auto_start_soft_start, exec_switch_standby b s hp]
  by_cases hc : s.sepic.status.enabled = true ∧ s.sepic.status.adc_active = true ∧
      s.sepic.status.fault_active = false ∧ s.sepic.status.GO = true
  · simp only [if_pos hc]
    simp [hc]
  · simp only [if_neg hc]
    simp [hc, hp]

/-- Instance of C5 with every start condition met. -/
theorem standby_step_witness :
    state_standby_go.sepic.soft_start.phase = SEPIC_SS_STANDBY ∧
    ((Step board0 state_standby_go).OVRENH = true ∧
    (Step board0 state_standby_go).c2p2z_sepic.enable = false ∧
    (Step board0 state_standby_go).sepic.status.pwm_active = false ∧
    (Step board0 state_standby_go).sepic.status.op_status = SEPIC_STAT_STANDBY ∧
    (((Step board0 state_standby_go).sepic.soft_start.phase = SEPIC_SS_PWR_ON_DELAY ∧
        (Step board0 state_standby_go).sepic.soft_start.counter = 0) ↔
      (state_standby_go.sepic.status.enabled = true ∧
        state_standby_go.sepic.status.adc_active = true ∧
        state_standby_go.sepic.status.fault_active = false ∧
        state_standby_go.sepic.status.GO = true)) ∧
    (¬ (state_standby_go.sepic.status.enabled = true ∧
        state_standby_go.sepic.status.adc_active = true ∧
        state_standby_go.sepic.status.fault_active = false ∧
        state_standby_go.sepic.status.GO = true) →
      (Step board0 state_standby_go).sepic.soft_start.phase = SEPIC_SS_STANDBY ∧
      (Step board0 state_standby_go).sepic.soft_start.counter =
        state_standby_go.sepic.soft_start.counter)) :=
  ⟨rfl, standby_step board0 state_standby_go rfl⟩

/-- C6 (ramp increment), evaluated on the code: in RAMP_UP with a configured
`ramp_ref_increment = 1` and `reference = 100`, one call of
`exec_sepic_pwr_control` leaves `reference = 104`, not `100 + 1`: the step adds
the literal `4` and never reads `ramp_ref_increment`. -/
theorem ramp_increment_ignored :
    state_ramp_inc.sepic.soft_start.phase = SEPIC_SS_RAMP_UP ∧
    state_ramp_inc.sepic.soft_start.ramp_ref_increment = 1 ∧
    state_ramp_inc.sepic.soft_start.reference = 100 ∧
    (Step board0 state_ramp_inc).sepic.soft_start.reference = 104 ∧
    (Step board0 state_ramp_inc).sepic.soft_start.reference ≠
      (state_ramp_inc.sepic.soft_start.reference +
        state_ramp_inc.sepic.soft_start.ramp_ref_increment) % WORD := by
  decide

/-- C7, amended (reset at start-up only): on the first launch the INIT and
LAUNCH_PER steps invoke the reset routine (twice) and leave both history buffers
zeroed with the loop disabled in STANDBY, and no number of further calls
invokes it again or writes the histories, so the first RAMP_UP step enables the
loop with zeroed histories; in every phase other than INIT and LAUNCH_PER a
call of `exec_sepic_pwr_control` neither invokes the reset routine nor writes
the histories, and never returns to INIT or LAUNCH_PER. -/
theorem reset_only_at_start_up (b : Board) (s t : State)
    (hs : s.sepic.soft_start.phase = SEPIC_SS_INIT)
    (h1 : t.sepic.soft_start.phase ≠ SEPIC_SS_INIT)
    (h2 : t.sepic.soft_start.phase ≠ SEPIC_SS_LAUNCH_PER) :
    ((Steps b 2 s).sepic.soft_start.phase = SEPIC_SS_STANDBY ∧
      (Steps b 2 s).c2p2z_sepic.enable = false ∧
      (Steps b 2 s).reset_calls = s.reset_calls + 2 ∧
      (Steps b 2 s).c2p2z_sepic_histories.ControlHistory =
        List.replicate s.c2p2z_sepic_histories.ControlHistory.length 0 ∧
      (Steps b 2 s).c2p2z_sepic_histories.ErrorHistory =
        List.replicate s.c2p2z_sepic_histories.ErrorHistory.length 0) ∧
    (∀ n : Nat,
      (Steps b (2 + n) s).c2p2z_sepic_histories = (Steps b 2 s).c2p2z_sepic_histories ∧
      (Steps b (2 + n) s).reset_calls = s.reset_calls + 2) ∧
    ((Step b t).c2p2z_sepic_histories = t.c2p2z_sepic_histories ∧
      (Step b t).reset_calls = t.reset_calls ∧
      (Step b t).sepic.soft_start.phase ≠ SEPIC_SS_INIT ∧
      (Step b t).sepic.soft_start.phase ≠ SEPIC_SS_LAUNCH_PER) := by
  have start : (Steps b 2 s).sepic.soft_start.phase = SEPIC_SS_STANDBY ∧
      (Steps b 2 s).c2p2z_sepic.enable = false ∧
      (Steps b 2 s).reset_calls = s.reset_calls + 2 ∧
      (Steps b 2 s).c2p2z_sepic_histories.ControlHistory =
        List.replicate s.c2p2z_sepic_histories.ControlHistory.length 0 ∧
      (Steps b 2 s).c2p2z_sepic_histories.ErrorHistory =
        List.replicate s.c2p2z_sepic_histories.ErrorHistory.length 0 := ?_
  refine ⟨start, ?_, ?_⟩
  rotate_left 2
  · have hl : (Step b s).sepic.soft_start.phase = SEPIC_SS_LAUNCH_PER := by
      rw [Step_eq, exec_auto_start_soft_start, exec_switch_init b s hs]
    have e : Steps b 2 s = Step b (Step b s) := rfl
    rw [e]
    rw [Step_eq b (Step b s), exec_auto_start_soft_start, exec_auto_start_c2p2z,
      exec_auto_start_reset_calls, exec_auto_start_histories,
      exec_switch_launch_per b (Step b s) hl]
    rw [Step_eq, exec_switch_init b s hs]
    simp [launch_sepic_pwr_control, c2p2z_sepic_Reset, init_sepic_pwr_control,
      c2p2z_sepic_Init, exec_auto_start_c2p2z, exec_auto_start_reset_calls,
      exec_auto_start_histories]
  · intro n
    have hq := steps_histories b (Steps b 2 s) (by rw [start.1]; decide)
      (by rw [start.1]; decide) n
    rw [Steps_add, hq.1, hq.2.1, start.2.2.1]
    exact ⟨rfl, rfl⟩
  · rw [Step_eq, exec_auto_start_soft_start, exec_auto_start_reset_calls,
      exec_auto_start_histories]
    exact exec_switch_histories b t h1 h2

/-- Instance of C7 at the reset state and at an idle STANDBY state. -/
theorem reset_only_at_start_up_witness :
    state0.sepic.soft_start.phase = SEPIC_SS_INIT ∧
    state_standby_idle.sepic.soft_start.phase ≠ SEPIC_SS_INIT ∧
    state_standby_idle.sepic.soft_start.phase ≠ SEPIC_SS_LAUNCH_PER ∧
    ((Steps board0 2 state0).sepic.soft_start.phase = SEPIC_SS_STANDBY ∧
      (Steps board0 2 state0).c2p2z_sepic.enable = false ∧
      (Steps board0 2 state0).reset_calls = state0.reset_calls + 2 ∧
      (Steps board0 2 state0).c2p2z_sepic_histories.ControlHistory =
        List.replicate state0.c2p2z_sepic_histories.ControlHistory.length 0 ∧
      (Steps board0 2 state0).c2p2z_sepic_histories.ErrorHistory =
        List.replicate state0.c2p2z_sepic_histories.ErrorHistory.length 0) ∧
    (∀ n : Nat,
      (Steps board0 (2 + n) state0).c2p2z_sepic_histories =
        (Steps board0 2 state0).c2p2z_sepic_histories ∧
      (Steps board0 (2 + n) state0).reset_calls = state0.reset_calls + 2) ∧
    ((Step board0 state_standby_idle).c2p2z_sepic_histories =
        state_standby_idle.c2p2z_sepic_histories ∧
      (Step board0 state_standby_idle).reset_calls = state_standby_idle.reset_calls ∧
      (Step board0 state_standby_idle).sepic.soft_start.phase ≠ SEPIC_SS_INIT ∧
      (Step board0 state_standby_idle).sepic.soft_start.phase ≠ SEPIC_SS_LAUNCH_PER) :=
  ⟨rfl, by decide, by decide,
    reset_only_at_start_up board0 state0 state_standby_idle rfl (by decide) (by decide)⟩

/-- C7 as stated fails on a re-launch: a regulating converter is hit by an
unhandled phase value, recovers through STANDBY (loop disabled) and, once the
fault flag is cleared, runs through the power-on delay to RAMP_UP, whose step
enables the loop again; the reset routine has not been invoked in between and
the histories are the non-zero ones the loop had left. -/
theorem reset_on_relaunch_counterexample :
    state_running.c2p2z_sepic.enable = true ∧
    (Steps board0 2 state_running).sepic.soft_start.phase = SEPIC_SS_STANDBY ∧
    (Steps board0 2 state_running).c2p2z_sepic.enable = false ∧
    (Steps board0 6 (fault_cleared (Steps board0 2 state_running))).sepic.soft_start.phase =
      SEPIC_SS_RAMP_UP ∧
    (Steps board0 6 (fault_cleared (Steps board0 2 state_running))).c2p2z_sepic.enable = false ∧
    (Steps board0 7 (fault_cleared (Steps board0 2 state_running))).c2p2z_sepic.enable = true ∧
    (Steps board0 7 (fault_cleared (Steps board0 2 state_running))).reset_calls =
      state_running.reset_calls ∧
    (Steps board0 7 (fault_cleared (Steps board0 2 state_running))).c2p2z_sepic_histories =
      { ControlHistory := [812, 810], ErrorHistory := [3, -2, 5] } := by
  decide

/-- C8, amended (no configuration check): `c2p2z_sepic_Init` and
`init_sepic_pwr_control` return `1` for every state, whatever the array lengths,
and the INIT step always moves the phase to LAUNCH_PER. -/
theorem init_never_fails (b : Board) (s : State)
    (hp : s.sepic.soft_start.phase = SEPIC_SS_INIT) :
    (c2p2z_sepic_Init s).2 = 1 ∧
    (init_sepic_pwr_control b s).2 = 1 ∧
    (exec_sepic_pwr_control b s).1.sepic.soft_start.phase = SEPIC_SS_LAUNCH_PER ∧
    (exec_sepic_pwr_control b s).2 = 1 := by
  refine ⟨rfl, rfl, ?_, rfl⟩
  show (Step b s).sepic.soft_start.phase = _
  rw [Step_eq, exec_auto_start_soft_start, exec_switch_init b s hp]

/-- Instance of C8 at a state whose history arrays disagree in length with the
coefficient arrays. -/
theorem init_never_fails_witness :
    state_mismatch.sepic.soft_start.phase = SEPIC_SS_INIT ∧
    (c2p2z_sepic_Init state_mismatch).2 = 1 ∧
    (init_sepic_pwr_control board0 state_mismatch).2 = 1 ∧
    (exec_sepic_pwr_control board0 state_mismatch).1.sepic.soft_start.phase =
      SEPIC_SS_LAUNCH_PER ∧
    (exec_sepic_pwr_control board0 state_mismatch).2 = 1 :=
  ⟨rfl, init_never_fails board0 state_mismatch rfl⟩

/-- C8 as stated fails: with two A-coefficients against three control-history
words and three B-coefficients against two error-history words,
`c2p2z_sepic_Init` still returns `1` and the INIT step moves the phase to
LAUNCH_PER. -/
theorem config_mismatch_counterexample :
    state_mismatch.c2p2z_sepic_coefficients.ACoefficients.length ≠
      state_mismatch.c2p2z_sepic_histories.ControlHistory.length ∧
    state_mismatch.c2p2z_sepic_coefficients.BCoefficients.length ≠
      state_mismatch.c2p2z_sepic_histories.ErrorHistory.length ∧
    state_mismatch.sepic.soft_start.phase = SEPIC_SS_INIT ∧
    (c2p2z_sepic_Init state_mismatch).2 = 1 ∧
    (exec_sepic_pwr_control board0 state_mismatch).1.sepic.soft_start.phase =
      SEPIC_SS_LAUNCH_PER := by
  decide

/-- C9 (COMPLETE is steady): from every state with phase COMPLETE, whatever the
status flags, one call of `exec_sepic_pwr_control` leaves the phase COMPLETE,
sets `op_status = ON`, binds the compensator reference to `data.v_ref`, and
leaves the compensator enable flag, the counter and `soft_start.reference`
unchanged; after any number of calls the phase is still COMPLETE. -/
theorem complete_is_steady (b : Board) (s : State)
    (hp : s.sepic.soft_start.phase = SEPIC_SS_COMPLETE) :
    (Step b s).sepic.soft_start.phase = SEPIC_SS_COMPLETE ∧
    (Step b s).sepic.status.op_status = SEPIC_STAT_ON ∧
    (Step b s).c2p2z_sepic.ptrControlReference = Loc.data_v_ref ∧
    (Step b s).c2p2z_sepic.enable = s.c2p2z_sepic.enable ∧
    (Step b s).sepic.soft_start.counter = s.sepic.soft_start.counter ∧
    (Step b s).sepic.soft_start.reference = s.sepic.soft_start.reference ∧
    ∀ n : Nat, (Steps b n s).sepic.soft_start.phase = SEPIC_SS_COMPLETE := by
  have one : ∀ t : State, t.sepic.soft_start.phase = SEPIC_SS_COMPLETE →
      (Step b t).sepic.soft_start.phase = SEPIC_SS_COMPLETE := by
    intro t ht
    simp only [Step_eq, exec_auto_start_soft_start, exec_switch_complete b t ht]
    exact ht
  refine ⟨one s hp, ?_, ?_, ?_, ?_, ?_, ?_⟩
  · simp only [Step_eq, exec_auto_start_op_status, exec_switch_complete b s hp]
  · simp only [Step_eq, exec_auto_start_c2p2z, exec_switch_complete b s hp]
  · simp only [Step_eq, exec_auto_start_c2p2z, exec_switch_complete b s hp]
  · simp only [Step_eq, exec_auto_start_soft_start, exec_switch_complete b s hp]
  · simp only [Step_eq, exec_auto_start_soft_start, exec_switch_complete b s hp]
  · intro n
    induction n with
    | zero => exact hp
    | succ k ih => exact one _ ih

/-- Instance of C9 with `fault_active` set and `adc_active` clear. -/
theorem complete_is_steady_witness :
    state_complete.sepic.soft_start.phase = SEPIC_SS_COMPLETE ∧
    state_complete.sepic.status.fault_active = true ∧
    state_complete.sepic.status.adc_active = false ∧
    ((Step board0 state_complete).sepic.soft_start.phase = SEPIC_SS_COMPLETE ∧
    (Step board0 state_complete).sepic.status.op_status = SEPIC_STAT_ON ∧
    (Step board0 state_complete).c2p2z_sepic.ptrControlReference = Loc.data_v_ref ∧
    (Step board0 state_complete).c2p2z_sepic.enable = state_complete.c2p2z_sepic.enable ∧
    (Step board0 state_complete).sepic.soft_start.counter =
      state_complete.sepic.soft_start.counter ∧
    (Step board0 state_complete).sepic.soft_start.reference =
      state_complete.sepic.soft_start.reference ∧
    ∀ n : Nat, (Steps board0 n state_complete).sepic.soft_start.phase = SEPIC_SS_COMPLETE) :=
  ⟨rfl, rfl, rfl, complete_is_steady board0 state_complete rfl⟩

/-- C10, amended (auto-start in STANDBY): in STANDBY with `auto_start` set, the
test of the call reads `enabled` and `GO` as they are on entry: if both are set
(as every earlier call with `auto_start` set leaves them) the phase moves to
PWR_ON_DELAY exactly when `adc_active ∧ ¬ fault_active`; if one of them is clear
the phase stays STANDBY for this call; in either case the call leaves `enabled`,
`GO` and `auto_start` set. -/
theorem auto_start_standby (b : Board) (s : State)
    (hp : s.sepic.soft_start.phase = SEPIC_SS_STANDBY)
    (ha : s.sepic.status.auto_start = true) :
    (s.sepic.status.enabled = true ∧ s.sepic.status.GO = true →
      ((Step b s).sepic.soft_start.phase = SEPIC_SS_PWR_ON_DELAY ↔
        (s.sepic.status.adc_active = true ∧ s.sepic.status.fault_active = false))) ∧
    (¬ (s.sepic.status.enabled = true ∧ s.sepic.status.GO = true) →
      (Step b s).sepic.soft_start.phase = SEPIC_SS_STANDBY) ∧
    (Step b s).sepic.status.enabled = true ∧
    (Step b s).sepic.status.GO = true ∧
    (Step b s).sepic.status.auto_start = true := by
  have hx := exec_switch_auto_start_enabled b s
  rw [Step_eq, exec_auto_start_soft_start, exec_auto_start_enabled, exec_auto_start_GO,
    exec_auto_start_auto_start, hx.1, ha, exec_switch_standby b s hp]
  refine ⟨?_, ?_, rfl, rfl, rfl⟩
  · rintro ⟨he, hg⟩
    by_cases hc : s.sepic.status.adc_active = true ∧ s.sepic.status.fault_active = false
    · rw [if_pos ⟨he, hc.1, hc.2, hg⟩]
      simp [hc]
    · rw [if_neg (fun h => hc ⟨h.2.1, h.2.2.1⟩)]
      simp only [hp]
      simp [hc]
  · intro hn
    rw [if_neg (fun h => hn ⟨h.1, h.2.2.2⟩)]
    exact hp

/-- Instance of C10 with `enabled` and `GO` already forced. -/
theorem auto_start_standby_witness :
    state_standby_armed.sepic.soft_start.phase = SEPIC_SS_STANDBY ∧
    state_standby_armed.sepic.status.auto_start = true ∧
    ((state_standby_armed.sepic.status.enabled = true ∧
        state_standby_armed.sepic.status.GO = true →
      ((Step board0 state_standby_armed).sepic.soft_start.phase = SEPIC_SS_PWR_ON_DELAY ↔
        (state_standby_armed.sepic.status.adc_active = true ∧
          state_standby_armed.sepic.status.fault_active = false))) ∧
    (¬ (state_standby_armed.sepic.status.enabled = true ∧
        state_standby_armed.sepic.status.GO = true) →
      (Step board0 state_standby_armed).sepic.soft_start.phase = SEPIC_SS_STANDBY) ∧
    (Step board0 state_standby_armed).sepic.status.enabled = true ∧
    (Step board0 state_standby_armed).sepic.status.GO = true ∧
    (Step board0 state_standby_armed).sepic.status.auto_start = true) :=
  ⟨rfl, rfl, auto_start_standby board0 state_standby_armed rfl rfl⟩

/-- C10 as stated fails when `enabled` and `GO` are still clear: with
`auto_start` set, `adc_active` set and no fault, one call leaves the phase at
STANDBY. -/
theorem auto_start_standby_counterexample :
    state_standby_auto.sepic.soft_start.phase = SEPIC_SS_STANDBY ∧
    state_standby_auto.sepic.status.auto_start = true ∧
    state_standby_auto.sepic.status.adc_active = true ∧
    state_standby_auto.sepic.status.fault_active = false ∧
    (exec_sepic_pwr_control board0 state_standby_auto).1.sepic.soft_start.phase ≠
      SEPIC_SS_PWR_ON_DELAY := by
  decide

/-- C11 (configuration load): with the arrays of two A- and three B-coefficients,
after `c2p2z_sepic_Init` the A-array holds `0x6F0EFFFF, 0xA1E50000` and the
B-array `0x54DF0000, 0x73C40006, 0xACF10000` read as 32-bit signed values, the
pre-shift is `3`, both post-shifts and the post-scaler are `0`, the four array
sizes are stored in the controller object, every status flag is clear and the
function returns `1`; as signed values the five defaults are `1863254015`,
`-1578827776`, `1423900672`, `1942224902` and `-1393491968`. -/
theorem configuration_load (s : State)
    (hA : s.c2p2z_sepic_coefficients.ACoefficients.length = 2)
    (hB : s.c2p2z_sepic_coefficients.BCoefficients.length = 3) :
    (c2p2z_sepic_Init s).1.c2p2z_sepic_coefficients.ACoefficients =
      [toInt32 0x6F0EFFFF, toInt32 0xA1E50000] ∧
    (c2p2z_sepic_Init s).1.c2p2z_sepic_coefficients.BCoefficients =
      [toInt32 0x54DF0000, toInt32 0x73C40006, toInt32 0xACF10000] ∧
    (c2p2z_sepic_Init s).1.c2p2z_sepic.normPreShift = 3 ∧
    (c2p2z_sepic_Init s).1.c2p2z_sepic.normPostShiftA = 0 ∧
    (c2p2z_sepic_Init s).1.c2p2z_sepic.normPostShiftB = 0 ∧
    (c2p2z_sepic_Init s).1.c2p2z_sepic.normPostScaler = 0 ∧
    (c2p2z_sepic_Init s).1.c2p2z_sepic.ACoefficientsArraySize = 2 ∧
    (c2p2z_sepic_Init s).1.c2p2z_sepic.BCoefficientsArraySize = 3 ∧
    (c2p2z_sepic_Init s).1.c2p2z_sepic.ControlHistoryArraySize =
      s.c2p2z_sepic_histories.ControlHistory.length % WORD ∧
    (c2p2z_sepic_Init s).1.c2p2z_sepic.ErrorHistoryArraySize =
      s.c2p2z_sepic_histories.ErrorHistory.length % WORD ∧
    (c2p2z_sepic_Init s).1.c2p2z_sepic.enable = false ∧
    (c2p2z_sepic_Init s).1.c2p2z_sepic.status_other = 0 ∧
    (c2p2z_sepic_Init s).2 = 1 ∧
    toInt32 0x6F0EFFFF = 1863254015 ∧ toInt32 0xA1E50000 = -1578827776 ∧
    toInt32 0x54DF0000 = 1423900672 ∧ toInt32 0x73C40006 = 1942224902 ∧
    toInt32 0xACF10000 = -1393491968 := by
  obtain ⟨x, y, hxy⟩ := list_length_two _ hA
  obtain ⟨u, v, w, huvw⟩ := list_length_three _ hB
  have eA : (c2p2z_sepic_Init s).1.c2p2z_sepic_coefficients.ACoefficients =
      copy_loop (c2p2z_sepic_ACoefficients_size s) c2p2z_sepic_ACoefficients
        s.c2p2z_sepic_coefficients.ACoefficients := rfl
  have eB : (c2p2z_sepic_Init s).1.c2p2z_sepic_coefficients.BCoefficients =
      copy_loop (c2p2z_sepic_BCoefficients_size s) c2p2z_sepic_BCoefficients
        s.c2p2z_sepic_coefficients.BCoefficients := rfl
  have sA : c2p2z_sepic_ACoefficients_size s = 2 := by
    unfold c2p2z_sepic_ACoefficients_size; rw [hA]; rfl
  have sB : c2p2z_sepic_BCoefficients_size s = 3 := by
    unfold c2p2z_sepic_BCoefficients_size; rw [hB]; rfl
  refine ⟨?_, ?_, rfl, rfl, rfl, rfl, sA, sB, rfl, rfl, rfl, rfl, rfl,
    by decide, by decide, by decide, by decide, by decide⟩
  · rw [eA, sA, hxy, copy_loop_two]; rfl
  · rw [eB, sB, huvw, copy_loop_three]; rfl

/-- Instance of C11 at the reset state. -/
theorem configuration_load_witness :
    state0.c2p2z_sepic_coefficients.ACoefficients.length = 2 ∧
    state0.c2p2z_sepic_coefficients.BCoefficients.length = 3 ∧
    ((c2p2z_sepic_Init state0).1.c2p2z_sepic_coefficients.ACoefficients =
      [toInt32 0x6F0EFFFF, toInt32 0xA1E50000] ∧
    (c2p2z_sepic_Init state0).1.c2p2z_sepic_coefficients.BCoefficients =
      [toInt32 0x54DF0000, toInt32 0x73C40006, toInt32 0xACF10000] ∧
    (c2p2z_sepic_Init state0).1.c2p2z_sepic.normPreShift = 3 ∧
    (c2p2z_sepic_Init state0).1.c2p2z_sepic.normPostShiftA = 0 ∧
    (c2p2z_sepic_Init state0).1.c2p2z_sepic.normPostShiftB = 0 ∧
    (c2p2z_sepic_Init state0).1.c2p2z_sepic.normPostScaler = 0 ∧
    (c2p2z_sepic_Init state0).1.c2p2z_sepic.ACoefficientsArraySize = 2 ∧
    (c2p2z_sepic_Init state0).1.c2p2z_sepic.BCoefficientsArraySize = 3 ∧
    (c2p2z_sepic_Init state0).1.c2p2z_sepic.ControlHistoryArraySize =
      state0.c2p2z_sepic_histories.ControlHistory.length % WORD ∧
    (c2p2z_sepic_Init state0).1.c2p2z_sepic.ErrorHistoryArraySize =
      state0.c2p2z_sepic_histories.ErrorHistory.length % WORD ∧
    (c2p2z_sepic_Init state0).1.c2p2z_sepic.enable = false ∧
    (c2p2z_sepic_Init state0).1.c2p2z_sepic.status_other = 0 ∧
    (c2p2z_sepic_Init state0).2 = 1 ∧
    toInt32 0x6F0EFFFF = 1863254015 ∧ toInt32 0xA1E50000 = -1578827776 ∧
    toInt32 0x54DF0000 = 1423900672 ∧ toInt32 0x73C40006 = 1942224902 ∧
    toInt32 0xACF10000 = -1393491968) :=
  ⟨rfl, rfl, configuration_load state0 rfl rfl⟩

/-- C13 (start-up sequence): from every state with phase INIT one call of
`exec_sepic_pwr_control` yields phase LAUNCH_PER with `op_status = OFF`, the
loop disabled, `counter = 0`, the compensator reference bound to `data.v_ref`
and `data.v_ref = 0`; the second call yields STANDBY with `op_status = OFF`; and
from every state with phase LAUNCH_PER one call yields STANDBY with
`op_status = OFF`. No flag is consulted. -/
theorem start_up_sequence (b : Board) (s t : State)
    (hs : s.sepic.soft_start.phase = SEPIC_SS_INIT)
    (ht : t.sepic.soft_start.phase = SEPIC_SS_LAUNCH_PER) :
    ((Step b s).sepic.soft_start.phase = SEPIC_SS_LAUNCH_PER ∧
      (Step b s).sepic.status.op_status = SEPIC_STAT_OFF ∧
      (Step b s).c2p2z_sepic.enable = false ∧
      (Step b s).sepic.soft_start.counter = 0 ∧
      (Step b s).c2p2z_sepic.ptrControlReference = Loc.data_v_ref ∧
      (Step b s).sepic.data.v_ref = 0) ∧
    ((Steps b 2 s).sepic.soft_start.phase = SEPIC_SS_STANDBY ∧
      (Steps b 2 s).sepic.status.op_status = SEPIC_STAT_OFF) ∧
    ((Step b t).sepic.soft_start.phase = SEPIC_SS_STANDBY ∧
      (Step b t).sepic.status.op_status = SEPIC_STAT_OFF) := by
  have h1 := step_init b s hs
  have h2 := step_launch_per b (Step b s) h1.1
  have h3 := step_launch_per b t ht
  exact ⟨h1, ⟨h2.1, h2.2.1⟩, ⟨h3.1, h3.2.1⟩⟩

/-- Instance of C13 at the reset state and at a LAUNCH_PER state. -/
theorem start_up_sequence_witness :
    state0.sepic.soft_start.phase = SEPIC_SS_INIT ∧
    state_launch.sepic.soft_start.phase = SEPIC_SS_LAUNCH_PER ∧
    (((Step board0 state0).sepic.soft_start.phase = SEPIC_SS_LAUNCH_PER ∧
      (Step board0 state0).sepic.status.op_status = SEPIC_STAT_OFF ∧
      (Step board0 state0).c2p2z_sepic.enable = false ∧
      (Step board0 state0).sepic.soft_start.counter = 0 ∧
      (Step board0 state0).c2p2z_sepic.ptrControlReference = Loc.data_v_ref ∧
      (Step board0 state0).sepic.data.v_ref = 0) ∧
    ((Steps board0 2 state0).sepic.soft_start.phase = SEPIC_SS_STANDBY ∧
      (Steps board0 2 state0).sepic.status.op_status = SEPIC_STAT_OFF) ∧
    ((Step board0 state_launch).sepic.soft_start.phase = SEPIC_SS_STANDBY ∧
      (Step board0 state_launch).sepic.status.op_status = SEPIC_STAT_OFF)) :=
  ⟨rfl, rfl, start_up_sequence board0 state0 state_launch rfl rfl⟩

/-- C14, amended (power-good delay): for every configured `pwr_good_delay = M`
with `M ≤ 65534`, starting in PWR_GOOD_DELAY with `counter = 0`, the phase is
still PWR_GOOD_DELAY after each of the first `M + 1` calls of
`exec_sepic_pwr_control` and is COMPLETE after the `(M + 2)`-th call, with
`counter = 0`; through all these calls the compensator enable flag and the
reference binding keep their values. -/
theorem power_good_delay (b : Board) (s : State) (M : Nat) (hM : M ≤ 65534)
    (hp : s.sepic.soft_start.phase = SEPIC_SS_PWR_GOOD_DELAY)
    (hc : s.sepic.soft_start.counter = 0)
    (hd : s.sepic.soft_start.pwr_good_delay = M) :
    (∀ k : Nat, k ≤ M + 1 →
      (Steps b k s).sepic.soft_start.phase = SEPIC_SS_PWR_GOOD_DELAY) ∧
    (Steps b (M + 2) s).sepic.soft_start.phase = SEPIC_SS_COMPLETE ∧
    (Steps b (M + 2) s).sepic.soft_start.counter = 0 ∧
    (∀ k : Nat, k ≤ M + 2 →
      (Steps b k s).c2p2z_sepic.enable = s.c2p2z_sepic.enable ∧
      (Steps b k s).c2p2z_sepic.ptrControlReference = s.c2p2z_sepic.ptrControlReference) := by
  obtain ⟨d1, d2, -, -⟩ := steps_pwr_good_delay_done b s M hM hp hc hd
  refine ⟨?_, ?_, ?_, ?_⟩
  · intro k hk
    rw [(steps_pwr_good_delay_wait b s M hM hp hc hd k hk).1]
    exact hp
  · rw [d1]
  · rw [d1]
  · intro k hk
    rcases Nat.lt_or_ge k (M + 2) with h | h
    · rw [(steps_pwr_good_delay_wait b s M hM hp hc hd k (by omega)).2.1]
      exact ⟨rfl, rfl⟩
    · have : k = M + 2 := by omega
      rw [this, d2]
      exact ⟨rfl, rfl⟩

/-- Instance of C14 at `pwr_good_delay = 2`: three calls wait, the fourth enters
COMPLETE. -/
theorem power_good_delay_witness :
    (2 : Nat) ≤ 65534 ∧
    state_good_delay.sepic.soft_start.phase = SEPIC_SS_PWR_GOOD_DELAY ∧
    state_good_delay.sepic.soft_start.counter = 0 ∧
    state_good_delay.sepic.soft_start.pwr_good_delay = 2 ∧
    ((∀ k : Nat, k ≤ 2 + 1 →
      (Steps board0 k state_good_delay).sepic.soft_start.phase = SEPIC_SS_PWR_GOOD_DELAY) ∧
    (Steps board0 (2 + 2) state_good_delay).sepic.soft_start.phase = SEPIC_SS_COMPLETE ∧
    (Steps board0 (2 + 2) state_good_delay).sepic.soft_start.counter = 0 ∧
    (∀ k : Nat, k ≤ 2 + 2 →
      (Steps board0 k state_good_delay).c2p2z_sepic.enable =
        state_good_delay.c2p2z_sepic.enable ∧
      (Steps board0 k state_good_delay).c2p2z_sepic.ptrControlReference =
        state_good_delay.c2p2z_sepic.ptrControlReference)) :=
  ⟨by decide, rfl, rfl, rfl,
    power_good_delay board0 state_good_delay 2 (by decide) rfl rfl rfl⟩

/-- C14 as stated fails at `M = 65535`: the 16-bit counter can never exceed the
delay, so after `M + 2` calls the phase is not COMPLETE. -/
theorem power_good_delay_counterexample :
    state_good_delay_max.sepic.soft_start.phase = SEPIC_SS_PWR_GOOD_DELAY ∧
    state_good_delay_max.sepic.soft_start.counter = 0 ∧
    state_good_delay_max.sepic.soft_start.pwr_good_delay = 65535 ∧
    (Steps board0 (65535 + 2) state_good_delay_max).sepic.soft_start.phase ≠
      SEPIC_SS_COMPLETE := by
  refine ⟨rfl, rfl, rfl, ?_⟩
  rw [(steps_pwr_good_delay_max board0 state_good_delay_max rfl rfl (by decide)
    (65535 + 2)).1]
  decide

/-- C15 (fault is latched): no call of `exec_sepic_pwr_control` lowers a raised
`fault_active`; and from every state with phase STANDBY and `fault_active` set,
after every sequence of calls, sampling interrupts and outside writes that leave
`fault_active` set, the phase is STANDBY, `fault_active` is set, and the loop is
disabled as soon as one call has run (or if it was disabled at the start). -/
theorem fault_is_latched (b : Board) (m : UpdateModel) (s : State) (es : List Event)
    (hp : s.sepic.soft_start.phase = SEPIC_SS_STANDBY)
    (hf : s.sepic.status.fault_active = true)
    (hes : ∀ e ∈ es, e.keeps_fault = true) :
    (∀ t : State, t.sepic.status.fault_active = true →
      (exec_sepic_pwr_control b t).1.sepic.status.fault_active = true) ∧
    (run_events b m es s).sepic.soft_start.phase = SEPIC_SS_STANDBY ∧
    (run_events b m es s).sepic.status.fault_active = true ∧
    (s.c2p2z_sepic.enable = false ∨ Event.tick ∈ es →
      (run_events b m es s).c2p2z_sepic.enable = false) := by
  refine ⟨?_, run_events_standby_fault b m es s hp hf hes⟩
  intro t ht
  show (Step b t).sepic.status.fault_active = true
  rw [Step_eq, exec_auto_start_fault_active]
  exact exec_switch_fault_active b t ht

/-- Instance of C15 right after a fault step, with auto-start set and every start
flag raised from outside. -/
theorem fault_is_latched_witness :
    state_standby_fault.sepic.soft_start.phase = SEPIC_SS_STANDBY ∧
    state_standby_fault.sepic.status.fault_active = true ∧
    (∀ e ∈ events_faulted, e.keeps_fault = true) ∧
    Event.tick ∈ events_faulted ∧
    ((∀ t : State, t.sepic.status.fault_active = true →
      (exec_sepic_pwr_control board0 t).1.sepic.status.fault_active = true) ∧
    (run_events board0 update0 events_faulted state_standby_fault).sepic.soft_start.phase =
      SEPIC_SS_STANDBY ∧
    (run_events board0 update0 events_faulted state_standby_fault).sepic.status.fault_active =
      true ∧
    (state_standby_fault.c2p2z_sepic.enable = false ∨ Event.tick ∈ events_faulted →
      (run_events board0 update0 events_faulted state_standby_fault).c2p2z_sepic.enable =
        false)) :=
  ⟨rfl, rfl, by decide, by decide,
    fault_is_latched board0 update0 state_standby_fault events_faulted rfl rfl (by decide)⟩

/-- C16 (safe state one tick after the fault step): from every state whose phase
is none of the seven handled phases, the first call of `exec_sepic_pwr_control`
leaves the compensator enable flag and the PWM override as they were, and after
the second call the phase is STANDBY, the loop is disabled, the PWM override is
asserted and `pwm_active` is clear, whatever the flags. -/
theorem safe_state_after_fault (b : Board) (s : State)
    (h : s.sepic.soft_start.phase.handled = false) :
    ((Step b s).c2p2z_sepic.enable = s.c2p2z_sepic.enable ∧
      (Step b s).OVRENH = s.OVRENH) ∧
    ((Steps b 2 s).sepic.soft_start.phase = SEPIC_SS_STANDBY ∧
      (Steps b 2 s).c2p2z_sepic.enable = false ∧
      (Steps b 2 s).OVRENH = true ∧
      (Steps b 2 s).sepic.status.pwm_active = false) := by
  cases hp : s.sepic.soft_start.phase <;> simp [hp, SEPIC_SS_PHASE.handled] at h
  rename_i raw
  obtain ⟨d1, d2, d3, d4⟩ := step_default b s raw hp
  obtain ⟨f1, -, f3, f4, f5⟩ := step_standby_fault b (Step b s) d1 d2
  refine ⟨⟨by rw [d3], d4⟩, f1, f3, f4, f5⟩

/-- Instance of C16 at a running converter whose phase word holds `7`. -/
theorem safe_state_after_fault_witness :
    state_corrupt.sepic.soft_start.phase.handled = false ∧
    state_corrupt.c2p2z_sepic.enable = true ∧
    (((Step board0 state_corrupt).c2p2z_sepic.enable = state_corrupt.c2p2z_sepic.enable ∧
      (Step board0 state_corrupt).OVRENH = state_corrupt.OVRENH) ∧
    ((Steps board0 2 state_corrupt).sepic.soft_start.phase = SEPIC_SS_STANDBY ∧
      (Steps board0 2 state_corrupt).c2p2z_sepic.enable = false ∧
      (Steps board0 2 state_corrupt).OVRENH = true ∧
      (Steps board0 2 state_corrupt).sepic.status.pwm_active = false)) :=
  ⟨rfl, rfl, safe_state_after_fault board0 state_corrupt rfl⟩

/-- C17 (end-to-end soft-start length): with 16-bit counter, delays and
references, for `pwr_on_delay = N ≤ 65534`, `pwr_good_delay = M ≤ 65534` and a
constant external target `1 ≤ T ≤ 65532`, starting in STANDBY with `enabled`,
`adc_active`, `GO` set and `fault_active` clear, the phase is not COMPLETE after
fewer than `N + M + ceil(T/4) + 5` calls of `exec_sepic_pwr_control` and is
COMPLETE after exactly that many; the loop is then enabled and
`T ≤ soft_start.reference ≤ T + 3`. -/
theorem soft_start_length (b : Board) (s : State) (N M T : Nat)
    (hN : N ≤ 65534) (hM : M ≤ 65534) (hT1 : 1 ≤ T) (hT2 : T ≤ 65532)
    (hp : s.sepic.soft_start.phase = SEPIC_SS_STANDBY)
    (hc : s.sepic.status.enabled = true ∧ s.sepic.status.adc_active = true ∧
      s.sepic.status.fault_active = false ∧ s.sepic.status.GO = true)
    (hdN : s.sepic.soft_start.pwr_on_delay = N)
    (hdM : s.sepic.soft_start.pwr_good_delay = M)
    (hv : s.sepic.data.v_ref = T) :
    (∀ k : Nat, k < N + M + (T + 3) / 4 + 5 →
      (Steps b k s).sepic.soft_start.phase ≠ SEPIC_SS_COMPLETE) ∧
    (Steps b (N + M + (T + 3) / 4 + 5) s).sepic.soft_start.phase = SEPIC_SS_COMPLETE ∧
    (Steps b (N + M + (T + 3) / 4 + 5) s).c2p2z_sepic.enable = true ∧
    T ≤ (Steps b (N + M + (T + 3) / 4 + 5) s).sepic.soft_start.reference ∧
    (Steps b (N + M + (T + 3) / 4 + 5) s).sepic.soft_start.reference ≤ T + 3 := by
  -- the STANDBY step
  obtain ⟨a1, -, -, a4⟩ := step_standby_start b s hp hc
  have e1 : Steps b 1 s = Step b s := rfl
  have p1 : (Steps b 1 s).sepic.soft_start.phase = SEPIC_SS_PWR_ON_DELAY := by rw [e1, a1]
  have c1 : (Steps b 1 s).sepic.soft_start.counter = 0 := by rw [e1, a1]
  have d1 : (Steps b 1 s).sepic.soft_start.pwr_on_delay = N := by rw [e1, a1]; exact hdN
  have g1 : (Steps b 1 s).sepic.soft_start.pwr_good_delay = M := by rw [e1, a1]; exact hdM
  have v1 : (Steps b 1 s).sepic.data.v_ref = T := by rw [e1, a4]; exact hv
  -- the power-on delay
  obtain ⟨b1, -, -, b4⟩ := steps_pwr_on_delay_done b (Steps b 1 s) N hN p1 c1 d1
  rw [← Steps_add] at b1 b4
  have p2 : (Steps b (1 + (N + 2)) s).sepic.soft_start.phase = SEPIC_SS_RAMP_UP := by rw [b1]
  have r2 : (Steps b (1 + (N + 2)) s).sepic.soft_start.reference = 0 := by rw [b1]
  have g2 : (Steps b (1 + (N + 2)) s).sepic.soft_start.pwr_good_delay = M := by
    rw [b1]; exact g1
  have v2 : (Steps b (1 + (N + 2)) s).sepic.data.v_ref = T := by rw [b4]; exact v1
  -- the ramp
  obtain ⟨c1', c2', c4'⟩ := steps_ramp_up_done b (Steps b (1 + (N + 2)) s) T hT1 hT2 p2 r2 v2
  rw [← Steps_add] at c1' c2' c4'
  have p3 : (Steps b (1 + (N + 2) + (T + 3) / 4) s).sepic.soft_start.phase =
      SEPIC_SS_PWR_GOOD_DELAY := by rw [c1']
  have k3 : (Steps b (1 + (N + 2) + (T + 3) / 4) s).sepic.soft_start.counter = 0 := by
    rw [c1']
  have g3 : (Steps b (1 + (N + 2) + (T + 3) / 4) s).sepic.soft_start.pwr_good_delay = M := by
    rw [c1']; exact g2
  have r3 : (Steps b (1 + (N + 2) + (T + 3) / 4) s).sepic.soft_start.reference =
      4 * ((T + 3) / 4) := by rw [c1']
  -- the power-good delay
  obtain ⟨f1, f2, -, -⟩ :=
    steps_pwr_good_delay_done b (Steps b (1 + (N + 2) + (T + 3) / 4) s) M hM p3 k3 g3
  rw [← Steps_add] at f1 f2
  have total : N + M + (T + 3) / 4 + 5 = 1 + (N + 2) + (T + 3) / 4 + (M + 2) := by omega
  rw [total]
  refine ⟨?_, ?_, ?_, ?_, ?_⟩
  · intro k hk
    rcases Nat.lt_or_ge k 1 with h0 | h0
    · have : k = 0 := by omega
      rw [this]
      show s.sepic.soft_start.phase ≠ _
      rw [hp]; decide
    rcases Nat.lt_or_ge k (1 + (N + 2)) with h1 | h1
    · obtain ⟨j, rfl⟩ : ∃ j, k = 1 + j := ⟨k - 1, by omega⟩
      rw [Steps_add,
        (steps_pwr_on_delay_wait b (Steps b 1 s) N hN p1 c1 d1 j (by omega)).1]
      show (Steps b 1 s).sepic.soft_start.phase ≠ _
      rw [p1]; decide
    rcases Nat.lt_or_ge k (1 + (N + 2) + (T + 3) / 4) with h2 | h2
    · obtain ⟨j, rfl⟩ : ∃ j, k = 1 + (N + 2) + j := ⟨k - (1 + (N + 2)), by omega⟩
      rw [Steps_add,
        (steps_ramp_up_wait b (Steps b (1 + (N + 2)) s) T hT2 p2 r2 v2 j (by omega)).1]
      show (Steps b (1 + (N + 2)) s).sepic.soft_start.phase ≠ _
      rw [p2]; decide
    · obtain ⟨j, rfl⟩ : ∃ j, k = 1 + (N + 2) + (T + 3) / 4 + j :=
        ⟨k - (1 + (N + 2) + (T + 3) / 4), by omega⟩
      rw [Steps_add,
        (steps_pwr_good_delay_wait b (Steps b (1 + (N + 2) + (T + 3) / 4) s) M hM p3 k3 g3 j
          (by omega)).1]
      show (Steps b (1 + (N + 2) + (T + 3) / 4) s).sepic.soft_start.phase ≠ _
      rw [p3]; decide
  · rw [f1]
  · rw [f2]; exact c2'
  · rw [f1]
    show T ≤ (Steps b (1 + (N + 2) + (T + 3) / 4) s).sepic.soft_start.reference
    rw [r3]; omega
  · rw [f1]
    show (Steps b (1 + (N + 2) + (T + 3) / 4) s).sepic.soft_start.reference ≤ T + 3
    rw [r3]; omega

/-- Instance of C17 with `N = 3`, `M = 2`, `T = 1000`: `260` calls. -/
theorem soft_start_length_witness :
    (3 : Nat) ≤ 65534 ∧ (2 : Nat) ≤ 65534 ∧ (1 : Nat) ≤ 1000 ∧ (1000 : Nat) ≤ 65532 ∧
    state_standby_go.sepic.soft_start.phase = SEPIC_SS_STANDBY ∧
    (state_standby_go.sepic.status.enabled = true ∧
      state_standby_go.sepic.status.adc_active = true ∧
      state_standby_go.sepic.status.fault_active = false ∧
      state_standby_go.sepic.status.GO = true) ∧
    state_standby_go.sepic.soft_start.pwr_on_delay = 3 ∧
    state_standby_go.sepic.soft_start.pwr_good_delay = 2 ∧
    state_standby_go.sepic.data.v_ref = 1000 ∧
    3 + 2 + (1000 + 3) / 4 + 5 = 260 ∧
    ((∀ k : Nat, k < 3 + 2 + (1000 + 3) / 4 + 5 →
      (Steps board0 k state_standby_go).sepic.soft_start.phase ≠ SEPIC_SS_COMPLETE) ∧
    (Steps board0 (3 + 2 + (1000 + 3) / 4 + 5) state_standby_go).sepic.soft_start.phase =
      SEPIC_SS_COMPLETE ∧
    (Steps board0 (3 + 2 + (1000 + 3) / 4 + 5) state_standby_go).c2p2z_sepic.enable = true ∧
    1000 ≤
      (Steps board0 (3 + 2 + (1000 + 3) / 4 + 5) state_standby_go).sepic.soft_start.reference ∧
    (Steps board0 (3 + 2 + (1000 + 3) / 4 + 5) state_standby_go).sepic.soft_start.reference ≤
      1000 + 3) :=
  ⟨by decide, by decide, by decide, by decide, rfl, ⟨rfl, rfl, rfl, rfl⟩, rfl, rfl, rfl,
    by decide,
    soft_start_length board0 state_standby_go 3 2 1000 (by decide) (by decide) (by decide)
      (by decide) rfl ⟨rfl, rfl, rfl, rfl⟩ rfl rfl rfl⟩

/-- C18 (enable-phase invariant): in every state reached from the state the INIT
step produces through calls of `exec_sepic_pwr_control`, sampling interrupts and
outside writes to the status flags and `data.v_ref`, the loop is disabled or the
phase is RAMP_UP, PWR_GOOD_DELAY or COMPLETE. -/
theorem enable_phase_invariant (b : Board) (m : UpdateModel) (s0 : State) (es : List Event)
    (h0 : s0.sepic.soft_start.phase = SEPIC_SS_INIT) :
    (run_events b m es (Step b s0)).c2p2z_sepic.enable = false ∨
    (run_events b m es (Step b s0)).sepic.soft_start.phase = SEPIC_SS_RAMP_UP ∨
    (run_events b m es (Step b s0)).sepic.soft_start.phase = SEPIC_SS_PWR_GOOD_DELAY ∨
    (run_events b m es (Step b s0)).sepic.soft_start.phase = SEPIC_SS_COMPLETE :=
  run_events_enable_only_when_running b m es (Step b s0)
    (Or.inl (step_init b s0 h0).2.2.1)

/-- Instance of C18: a start-up with target `8` that has reached the ramp with
the loop enabled. -/
theorem enable_phase_invariant_witness :
    state0.sepic.soft_start.phase = SEPIC_SS_INIT ∧
    (run_events board0 update0 events_start (Step board0 state0)).c2p2z_sepic.enable = true ∧
    ((run_events board0 update0 events_start (Step board0 state0)).c2p2z_sepic.enable =
        false ∨
      (run_events board0 update0 events_start (Step board0 state0)).sepic.soft_start.phase =
        SEPIC_SS_RAMP_UP ∨
      (run_events board0 update0 events_start (Step board0 state0)).sepic.soft_start.phase =
        SEPIC_SS_PWR_GOOD_DELAY ∨
      (run_events board0 update0 events_start (Step board0 state0)).sepic.soft_start.phase =
        SEPIC_SS_COMPLETE) :=
  ⟨rfl, by decide, enable_phase_invariant board0 update0 state0 events_start rfl⟩

/-- C19 (op_status reports the entry phase): after one call of
`exec_sepic_pwr_control` entered in phase `p`, `op_status` is OFF for INIT and
LAUNCH_PER, STANDBY for STANDBY, START for PWR_ON_DELAY, RAMP_UP and
PWR_GOOD_DELAY, ON for COMPLETE and FAULT for every other value, whatever phase
the call moves to. -/
theorem op_status_reports_entry_phase (b : Board) (s : State) :
    (exec_sepic_pwr_control b s).1.sepic.status.op_status =
      op_status_of_phase s.sepic.soft_start.phase := by
  show (Step b s).sepic.status.op_status = _
  rw [Step_eq, exec_auto_start_op_status]
  cases hp : s.sepic.soft_start.phase with
  | SEPIC_SS_INIT => rw [exec_switch_init b s hp]; rfl
  | SEPIC_SS_LAUNCH_PER => rw [exec_switch_launch_per b s hp]; rfl
  | SEPIC_SS_STANDBY => rw [exec_switch_standby b s hp]; split <;> rfl
  | SEPIC_SS_PWR_ON_DELAY => rw [exec_switch_pwr_on_delay b s hp]; split <;> rfl
  | SEPIC_SS_RAMP_UP => rw [exec_switch_ramp_up b s hp]; split <;> rfl
  | SEPIC_SS_PWR_GOOD_DELAY => rw [exec_switch_pwr_good_delay b s hp]; split <;> rfl
  | SEPIC_SS_COMPLETE => rw [exec_switch_complete b s hp]; rfl
  | undefined_phase raw => rw [exec_switch_default b s raw hp]; rfl

end SepicPcmc
